import Mathlib

/-!
# tmxpp: reading TMX maps and TSX tile sets

A shallow embedding of `src/read.cpp` (with `Size.hpp` and `Frame.hpp`).

* A C++ function that may throw becomes a function into `Except Error`.
* The elements of a braced initializer list are evaluated left to right, so an
  aggregate built by `return {a(), b(), c()}` becomes a `do` block that binds
  `a`, `b`, `c` in that order; the first failure is the failure of the whole.
* `int` values are `Int`. The only arithmetic of `read.cpp` is the quotient of a
  non-negative `int` by a positive one, which cannot overflow.
* The literals of `tmx_info.hpp`, the text conversions of `read_utility.hpp`,
  `to_color`, `to_point`, `to_data_flipped_id` and the loading of a document are
  not part of the sources at hand; they are parameters (`Tmx_info`,
  `Collaborators`), so every theorem holds whatever they are.
-/

set_option linter.dupNamespace false

namespace tmxpp

/-- The exceptions of `tmxpp/exceptions.hpp` and `tmxpp/impl/exceptions.hpp`, by
dynamic type. `Exception` is an exception that is exactly a `tmxpp::Exception`;
`Invalid_attribute` and `Invalid_element` carry the name and, when the
two-argument constructor is used, the raw text; `Invalid_argument` is the
exception the public entry points catch and rethrow as an `Exception`. -/
inductive Error where
  | Exception (what : String)
  | Invalid_argument (what : String)
  | Invalid_attribute (name : String) (value : Option String)
  | Invalid_element (name : String) (value : Option String)
deriving DecidableEq, Repr

/-- `File`: a strong typedef over a path; `File{}` is empty. -/
abbrev File := String

namespace Xml

/-- Modelled from the spec: `Xml.hpp` is missing. An element of the XML tree: its
tag name, its attributes in document order (name, raw text), its own raw text
value, and its child elements in document order. -/
inductive Element where
  | mk (name : String) (attributes : List (String × String)) (value : String)
      (nodes : List Element) : Element

/-- Modelled from the spec: `Xml::Element::name` of the missing `Xml.hpp`, the tag
name of the element. -/
def Element.name : Element → String
  | .mk n _ _ _ => n

/-- Modelled from the spec: the attribute list of an element (`Xml.hpp` is
missing). -/
def Element.attributes : Element → List (String × String)
  | .mk _ a _ _ => a

/-- Modelled from the spec: `Xml::Element::value` of the missing `Xml.hpp`, the
element's own raw text value. -/
def Element.value : Element → String
  | .mk _ _ v _ => v

/-- Modelled from the spec: all child elements, in document order (`Xml.hpp` is
missing). -/
def Element.nodes : Element → List Element
  | .mk _ _ _ c => c

/-- Modelled from the spec: `Xml::Element::optional_child` of the missing
`Xml.hpp`, the first child with the given tag name, if any. -/
def Element.optional_child (e : Element) (name : String) : Option Element :=
  e.nodes.find? (fun c => c.name == name)

/-- Modelled from the spec: `Xml::Element::child` of the missing `Xml.hpp`, the
required child with the given tag name; a missing one is an `Invalid_element`
naming the tag. -/
def Element.child (e : Element) (name : String) : Except Error Element :=
  match e.optional_child name with
  | some c => .ok c
  | none => .error (.Invalid_element name none)

/-- Modelled from the spec: `Xml::Element::children(name)` of the missing
`Xml.hpp`, the children with the given tag name, in document order. -/
def Element.children (e : Element) (name : String) : List Element :=
  e.nodes.filter (fun c => c.name == name)

end Xml

namespace impl

/-- Modelled from the spec: `optional_value` of the missing `read_utility.hpp`,
the raw text of the attribute with the given name, if the element has one. -/
def optional_value (element : Xml.Element) (name : String) : Option String :=
  element.attributes.lookup name

/-- Modelled from the spec: `value` of the missing `read_utility.hpp`, the raw
text of a required attribute; an absent one is an `Invalid_attribute` naming
the attribute (the one-argument constructor of `impl/exceptions.hpp`). -/
def value (element : Xml.Element) (name : String) : Except Error String :=
  match optional_value element name with
  | some v => .ok v
  | none => .error (.Invalid_attribute name none)

/-- Modelled from the spec: `children(element, names)` of the missing
`read_utility.hpp`, the children whose tag name is one of `names`, in document
order. -/
def children (element : Xml.Element) (names : List String) : List Xml.Element :=
  element.nodes.filter (fun c => decide (c.name ∈ names))

/-- Modelled from the spec: `transform<Container>(range, f)` of the missing
`read_utility.hpp`: `f` applied to each element in order, the results collected
in order; the first exception ends the whole. -/
def transform {α β : Type} (f : α → Except Error β) : List α → Except Error (List β)
  | [] => .ok []
  | a :: as => do
    let b ← f a
    let bs ← transform f as
    pure (b :: bs)

/-- The function-try-block of the public entry points:
`catch (const Invalid_argument& e) { throw Exception{e.what()}; }`. -/
def rethrow_invalid_argument {α : Type} (r : Except Error α) : Except Error α :=
  match r with
  | .error (.Invalid_argument what) => .error (.Exception what)
  | r => r

end impl

/-- The comparisons a numeric type offers to the constrained wrappers. -/
structure Arithmetic (N : Type) where
  zero : N
  lt : N → N → Bool
  le : N → N → Bool

/-- The built-in `int`. -/
def int_arithmetic : Arithmetic Int where
  zero := 0
  lt := fun a b => decide (a < b)
  le := fun a b => decide (a ≤ b)

/-- Modelled from the spec: `Positive<N>` of the missing `Constrained.hpp`:
construction returns the value when `N > 0` and fails otherwise. -/
def Positive {N : Type} (A : Arithmetic N) (x : N) : Except Error N :=
  if A.lt A.zero x then .ok x else .error (.Invalid_argument "Positive")

/-- Modelled from the spec: `Non_negative<N>` of the missing `Constrained.hpp`:
construction returns the value when `N >= 0` and fails otherwise. -/
def Non_negative {N : Type} (A : Arithmetic N) (x : N) : Except Error N :=
  if A.le A.zero x then .ok x else .error (.Invalid_argument "Non_negative")

/-- `Size<Number>` of `Size.hpp`; both dimensions are `Positive<Number>`, built
through `Positive`. -/
structure Size (N : Type) where
  w : N
  h : N

/-- Modelled from the spec: a point, or an offset, in pixels: `{x, y}`. -/
structure Point (N : Type) where
  x : N
  y : N

/-- The literals of `tmx_info.hpp` (missing from the sources) that `read.cpp`
names: element tags, attribute names and enumerated attribute values. They are
a parameter: nothing is assumed about them but what a theorem states. -/
structure Tmx_info where
  size_width : String
  size_height : String
  tile_size_width : String
  tile_size_height : String
  properties : String
  property : String
  property_name : String
  property_value : String
  property_alternative : String
  property_alternative_string : String
  property_alternative_int : String
  property_alternative_double : String
  property_alternative_bool : String
  property_alternative_color : String
  property_alternative_file : String
  property_value_true : String
  property_value_false : String
  image : String
  image_source : String
  image_transparent : String
  animation : String
  frame : String
  frame_id : String
  frame_duration : String
  tile_set : String
  tile_set_first_id : String
  tile_set_tsx : String
  tile_set_name : String
  tile_set_tile_count : String
  tile_set_columns : String
  tile_set_spacing : String
  tile_set_margin : String
  tile_set_tile : String
  tile_set_tile_id : String
  tile_offset : String
  tile_offset_x : String
  tile_offset_y : String
  data : String
  data_encoding : String
  data_encoding_csv : String
  data_encoding_base64 : String
  data_compression : String
  data_compression_zlib : String
  layer_name : String
  layer_opacity : String
  layer_visible : String
  offset_x : String
  offset_y : String
  tile_layer : String
  object_layer : String
  object_layer_color : String
  object_layer_draw_order : String
  object_layer_draw_order_top_down : String
  object_layer_draw_order_index : String
  object : String
  object_unique_id : String
  object_name : String
  object_type : String
  point_x : String
  point_y : String
  object_polyline : String
  object_polygon : String
  object_polygon_points : String
  object_ellipse : String
  object_clockwise_rotation : String
  object_global_id : String
  image_layer : String
  map : String
  map_version : String
  map_orientation : String
  map_orthogonal : String
  map_isometric : String
  map_staggered : String
  map_hexagonal : String
  map_staggered_axis : String
  map_staggered_axis_x : String
  map_staggered_axis_y : String
  map_staggered_index : String
  map_staggered_index_even : String
  map_staggered_index_odd : String
  map_hexagonal_side_legth : String
  map_render_order : String
  map_render_order_right_down : String
  map_render_order_right_up : String
  map_render_order_left_down : String
  map_render_order_left_up : String
  map_background : String
  map_next_id : String

/-- `Data::Encoding`. -/
inductive Data.Encoding where
  | csv
  | base64
deriving DecidableEq, Repr

/-- `Data::Compression`. -/
inductive Data.Compression where
  | none
  | zlib
deriving DecidableEq, Repr

/-- `Data::Format`: `{read_encoding(data), read_compression(data)}`. -/
structure Data.Format where
  encoding : Data.Encoding
  compression : Data.Compression
deriving DecidableEq, Repr

/-- The external collaborators of `read.cpp`, none of them among the sources:
the numeric types behind `Pixel` and `double` with their comparisons, the
colour type, the text conversions `from_string<T>` for each primitive `T`,
`to_color`, `to_point`, `to_data_flipped_id`, `tokenize`, the comparison
`format != encoding` of a `Data::Format` with a `Data::Encoding`, the path
operations `absolute(tsx, base)` and `path.parent_path()`, and the loading of
the document at a path (`impl::Xml xml{path}; xml.root()`). -/
structure Collaborators where
  Pixel : Type
  Double : Type
  Color : Type
  pixel : Arithmetic Pixel
  double : Arithmetic Double
  double_one : Double
  from_string_int : String → Except Error Int
  from_string_double : String → Except Error Double
  from_string_bool : String → Except Error Bool
  from_string_pixel : String → Except Error Pixel
  from_string_rep : String → Except Error Int
  from_string_local_tile_id : String → Except Error Nat
  from_string_global_tile_id : String → Except Error Nat
  from_string_unique_id : String → Except Error Int
  to_color : String → Except Error Color
  to_point : String → Except Error (Point Pixel)
  to_data_flipped_id : String → Except Error Nat
  tokenize : String → String → List String
  format_ne : Data.Format → Data.Encoding → Bool
  absolute : File → String → String
  parent_path : String → String
  load : String → Except Error Xml.Element

/-- `Property::Value`: the variant over string, int, double, bool, colour and
file, in the order `read_value` builds them. -/
inductive Property.Value (K : Collaborators) where
  | string (s : String)
  | int (i : Int)
  | double (d : K.Double)
  | bool (b : Bool)
  | color (c : K.Color)
  | file (f : File)

/-- `Property`: `{read_name(property), read_value(property)}`. -/
structure Property (K : Collaborators) where
  name : String
  value : Property.Value K

/-- `Properties`: the properties in document order. -/
abbrev Properties (K : Collaborators) := List (Property K)

/-- `Image`: `{read_source, read_transparent, read_optional_size}`. -/
structure Image (K : Collaborators) where
  source : File
  transparent : Option K.Color
  size : Option (Size K.Pixel)

/-- `Frame` of `Frame.hpp`: a local tile id and a duration in milliseconds. -/
structure Frame where
  id : Nat
  duration : Int
deriving DecidableEq, Repr

/-- `Animation`: the frames in document order. -/
abbrev Animation := List Frame

/-- `Layer`: `{read_name, read_opacity, read_visible, read_offset,
read_properties}`. -/
structure Layer (K : Collaborators) where
  name : String
  opacity : K.Double
  visible : Bool
  offset : Point K.Pixel
  properties : Properties K

/-- `Object::Shape`: the variant over rectangle, ellipse, polygon and polyline. -/
inductive Object.Shape (K : Collaborators) where
  | Rectangle (size : Size K.Pixel)
  | Ellipse (size : Size K.Pixel)
  | Polygon (points : List (Point K.Pixel))
  | Polyline (points : List (Point K.Pixel))

/-- `Object`, in the order `read_object` builds its members. -/
structure Object (K : Collaborators) where
  unique_id : Int
  name : String
  type : String
  position : Point K.Pixel
  shape : Option (Object.Shape K)
  clockwise_rotation : K.Double
  global_id : Option Nat
  visible : Bool
  properties : Properties K

/-- `Object_layer::Draw_order`. -/
inductive Object_layer.Draw_order where
  | top_down
  | index
deriving DecidableEq, Repr

/-- `Object_layer`: `{read_layer, read_color, read_draw_order, read_objects}`. -/
structure Object_layer (K : Collaborators) where
  layer : Layer K
  color : Option K.Color
  draw_order : Object_layer.Draw_order
  objects : List (Object K)

/-- `Tile_set::Tile`: `{read_tile_id, read_properties,
read_tile_collision_shape, read_animation}`. -/
structure Tile_set.Tile (K : Collaborators) where
  id : Nat
  properties : Properties K
  collision_shape : Option (Object_layer K)
  animation : Animation

/-- `Tile_set`, in the order `read_tile_set` builds its members. -/
structure Tile_set (K : Collaborators) where
  first_id : Nat
  tsx : File
  name : String
  tile_size : Size K.Pixel
  spacing : K.Pixel
  margin : K.Pixel
  size : Size Int
  tile_offset : Point K.Pixel
  properties : Properties K
  image : Image K
  tiles : List (Tile_set.Tile K)

/-- `Image_collection::Tile`: `{read_tile_id, read_properties, read_image,
read_tile_collision_shape, read_animation}`. -/
structure Image_collection.Tile (K : Collaborators) where
  id : Nat
  properties : Properties K
  image : Image K
  collision_shape : Option (Object_layer K)
  animation : Animation

/-- `Image_collection`, in the order `read_image_collection` builds its
members. -/
structure Image_collection (K : Collaborators) where
  first_id : Nat
  tsx : File
  name : String
  tile_size : Size K.Pixel
  tile_count : Int
  columns : Int
  tile_offset : Point K.Pixel
  properties : Properties K
  tiles : List (Image_collection.Tile K)

/-- `Map::Tile_set`: the variant over `Tile_set` and `Image_collection`. -/
inductive Map.Tile_set (K : Collaborators) where
  | tile_set (t : tmxpp.Tile_set K)
  | image_collection (c : Image_collection K)

/-- `Data`: `{format, read_ids(format, data.value())}`; a flipped global id is
its raw 32-bit value. -/
structure Data where
  format : Data.Format
  ids : List Nat
deriving DecidableEq, Repr

/-- `Tile_layer`: `{read_layer, read_isize, read_data}`. -/
structure Tile_layer (K : Collaborators) where
  layer : Layer K
  size : Size Int
  data : Data

/-- `Image_layer`: `{read_layer, read_image}`. -/
structure Image_layer (K : Collaborators) where
  layer : Layer K
  image : Option (Image K)

/-- `Map::Layer`: the variant over the three layer kinds. -/
inductive Map.Layer (K : Collaborators) where
  | tile_layer (l : Tile_layer K)
  | object_layer (l : Object_layer K)
  | image_layer (l : Image_layer K)

/-- `Map::Staggered::Axis`. -/
inductive Map.Axis where
  | x
  | y
deriving DecidableEq, Repr

/-- `Map::Staggered::Index`. -/
inductive Map.Index where
  | even
  | odd
deriving DecidableEq, Repr

/-- `Map::Orientation`: the variant over the four orientations. -/
inductive Map.Orientation (K : Collaborators) where
  | Orthogonal
  | Isometric
  | Staggered (axis : Map.Axis) (index : Map.Index)
  | Hexagonal (axis : Map.Axis) (index : Map.Index) (side_length : K.Pixel)

/-- `Map::Render_order`. -/
inductive Map.Render_order where
  | right_down
  | right_up
  | left_down
  | left_up
deriving DecidableEq, Repr

/-- `Map`, in the order `read_map` builds its members. -/
structure Map (K : Collaborators) where
  version : String
  orientation : Map.Orientation K
  render_order : Map.Render_order
  size : Size Int
  tile_size : Size K.Pixel
  background : Option K.Color
  next_id : Int
  properties : Properties K
  tile_sets : List (Map.Tile_set K)
  layers : List (Map.Layer K)

/-- Modelled from the spec: `Non_empty<std::string>` of the missing
`Constrained.hpp`: construction returns the string when its length is
positive and fails otherwise. -/
def Non_empty (s : String) : Except Error String :=
  if s ≠ "" then .ok s else .error (.Invalid_argument "Non_empty")

namespace impl

/-- Modelled from the spec: `from_string<Positive<N>>` of the missing
`read_utility.hpp`: the text is converted to the primitive, then wrapped. -/
def from_string_positive {N : Type} (A : Arithmetic N) (from_string : String → Except Error N)
    (v : String) : Except Error N := do
  let x ← from_string v
  Positive A x

/-- Modelled from the spec: `from_string<Unit_interval>` of the missing
`read_utility.hpp`: the text is converted to a `double`, which must lie in
`[0, 1]`. -/
def from_string_unit_interval (K : Collaborators) (v : String) : Except Error K.Double := do
  let x ← K.from_string_double v
  if K.double.le K.double.zero x && K.double.le x K.double_one then .ok x
  else .error (.Invalid_argument "Unit_interval")

/-- `read_isize` (read.cpp 22-26). -/
def read_isize (I : Tmx_info) (K : Collaborators) (element : Xml.Element) :
    Except Error (Size Int) := do
  let w ← (value element I.size_width) >>= from_string_positive int_arithmetic K.from_string_int
  let h ← (value element I.size_height) >>= from_string_positive int_arithmetic K.from_string_int
  pure ⟨w, h⟩

/-- `read_optional_size` (read.cpp 28-42). -/
def read_optional_size (I : Tmx_info) (K : Collaborators) (element : Xml.Element) :
    Except Error (Option (Size K.Pixel)) :=
  let w := optional_value element I.size_width
  let h := optional_value element I.size_height
  if w.isSome != h.isSome then
    .error (.Exception ("Expected both " ++ I.size_width ++ " and " ++ I.size_height ++ ", or none."))
  else
    match w, h with
    | some w, some h => do
      let pw ← from_string_positive K.pixel K.from_string_pixel w
      let ph ← from_string_positive K.pixel K.from_string_pixel h
      pure (some ⟨pw, ph⟩)
    | _, _ => .ok none

/-- `read_tile_size` (read.cpp 44-48). -/
def read_tile_size (I : Tmx_info) (K : Collaborators) (element : Xml.Element) :
    Except Error (Size K.Pixel) := do
  let w ← (value element I.tile_size_width) >>= from_string_positive K.pixel K.from_string_pixel
  let h ← (value element I.tile_size_height) >>= from_string_positive K.pixel K.from_string_pixel
  pure ⟨w, h⟩

namespace properties

/-- `properties::read_value` (read.cpp 52-80). -/
def read_value (I : Tmx_info) (K : Collaborators) (property : Xml.Element) :
    Except Error (Property.Value K) :=
  match optional_value property I.property_value with
  | none => .ok (.string property.value)
  | some value =>
    match optional_value property I.property_alternative with
    | none => .ok (.string value)
    | some alternative =>
      if alternative = I.property_alternative_string then .ok (.string value)
      else if alternative = I.property_alternative_int then
        (K.from_string_int value).map .int
      else if alternative = I.property_alternative_double then
        (K.from_string_double value).map .double
      else if alternative = I.property_alternative_bool then
        if value = I.property_value_true then .ok (.bool true)
        else if value = I.property_value_false then .ok (.bool false)
        else .error (.Exception ("Bad property bool value: " ++ value))
      else if alternative = I.property_alternative_color then
        (K.to_color value).map .color
      else if alternative = I.property_alternative_file then .ok (.file value)
      else .error (.Invalid_attribute I.property_alternative (some alternative))

/-- `properties::read_name` (read.cpp 82-86). -/
def read_name (I : Tmx_info) (property : Xml.Element) : Except Error String :=
  (value property I.property_name) >>= Non_empty

/-- `properties::read_property` (read.cpp 88-91). -/
def read_property (I : Tmx_info) (K : Collaborators) (property : Xml.Element) :
    Except Error (Property K) := do
  let name ← read_name I property
  let value ← read_value I K property
  pure ⟨name, value⟩

/-- `properties::read_properties` (read.cpp 93-101). -/
def read_properties (I : Tmx_info) (K : Collaborators) (element : Xml.Element) :
    Except Error (Properties K) :=
  match element.optional_child I.properties with
  | none => .ok []
  | some properties => transform (read_property I K) (properties.children I.property)

end properties

namespace image

/-- `image::read_source` (read.cpp 109-112). -/
def read_source (I : Tmx_info) (image : Xml.Element) : Except Error File :=
  value image I.image_source

/-- `image::read_transparent` (read.cpp 114-119). -/
def read_transparent (I : Tmx_info) (K : Collaborators) (image : Xml.Element) :
    Except Error (Option K.Color) :=
  match optional_value image I.image_transparent with
  | some color => (K.to_color color).map some
  | none => .ok none

/-- `image::read_image` (read.cpp 121-125). -/
def read_image (I : Tmx_info) (K : Collaborators) (image : Xml.Element) :
    Except Error (Image K) := do
  let source ← read_source I image
  let transparent ← read_transparent I K image
  let size ← read_optional_size I K image
  pure ⟨source, transparent, size⟩

end image

namespace animation

/-- `animation::read_id` (read.cpp 133-136). -/
def read_id (I : Tmx_info) (K : Collaborators) (frame : Xml.Element) : Except Error Nat :=
  (value frame I.frame_id) >>= K.from_string_local_tile_id

/-- `animation::read_duration` (read.cpp 138-142). -/
def read_duration (I : Tmx_info) (K : Collaborators) (frame : Xml.Element) :
    Except Error Int := do
  let rep ← (value frame I.frame_duration) >>= K.from_string_rep
  Non_negative int_arithmetic rep

/-- `animation::read_frame` (read.cpp 144-147). -/
def read_frame (I : Tmx_info) (K : Collaborators) (frame : Xml.Element) :
    Except Error Frame := do
  let id ← read_id I K frame
  let duration ← read_duration I K frame
  pure ⟨id, duration⟩

/-- `animation::read_animation` (read.cpp 149-157). -/
def read_animation (I : Tmx_info) (K : Collaborators) (tile : Xml.Element) :
    Except Error Animation :=
  match tile.optional_child I.animation with
  | none => .ok []
  | some animation => transform (read_frame I K) (animation.children I.frame)

end animation

namespace layer

/-- `layer::read_name` (read.cpp 396-401). -/
def read_name (I : Tmx_info) (layer : Xml.Element) : String :=
  match optional_value layer I.layer_name with
  | some name => name
  | none => ""

/-- `layer::read_opacity` (read.cpp 403-408). -/
def read_opacity (I : Tmx_info) (K : Collaborators) (layer : Xml.Element) :
    Except Error K.Double :=
  match optional_value layer I.layer_opacity with
  | some opacity => from_string_unit_interval K opacity
  | none => .ok K.double_one

/-- `layer::read_visible` (read.cpp 410-415). -/
def read_visible (I : Tmx_info) (K : Collaborators) (layer : Xml.Element) :
    Except Error Bool :=
  match optional_value layer I.layer_visible with
  | some visible => K.from_string_bool visible
  | none => .ok true

/-- `layer::read_offset` (read.cpp 417-424). -/
def read_offset (I : Tmx_info) (K : Collaborators) (layer : Xml.Element) :
    Except Error (Point K.Pixel) := do
  let x ← match optional_value layer I.offset_x with
    | some x => K.from_string_pixel x
    | none => .ok K.pixel.zero
  let y ← match optional_value layer I.offset_y with
    | some y => K.from_string_pixel y
    | none => .ok K.pixel.zero
  pure ⟨x, y⟩

/-- `layer::read_layer` (read.cpp 426-430). -/
def read_layer (I : Tmx_info) (K : Collaborators) (layer : Xml.Element) :
    Except Error (Layer K) := do
  let name := read_name I layer
  let opacity ← read_opacity I K layer
  let visible ← read_visible I K layer
  let offset ← read_offset I K layer
  let properties ← properties.read_properties I K layer
  pure ⟨name, opacity, visible, offset, properties⟩

end layer

namespace object

/-- `object::read_unique_id` (read.cpp 450-453). -/
def read_unique_id (I : Tmx_info) (K : Collaborators) (object : Xml.Element) :
    Except Error Int :=
  (value object I.object_unique_id) >>= K.from_string_unique_id

/-- `object::read_name` (read.cpp 455-460). -/
def read_name (I : Tmx_info) (object : Xml.Element) : String :=
  match optional_value object I.object_name with
  | some name => name
  | none => ""

/-- `object::read_type` (read.cpp 462-467). -/
def read_type (I : Tmx_info) (object : Xml.Element) : String :=
  match optional_value object I.object_type with
  | some type => type
  | none => ""

/-- `object::read_position` (read.cpp 469-473). -/
def read_position (I : Tmx_info) (K : Collaborators) (object : Xml.Element) :
    Except Error (Point K.Pixel) := do
  let x ← (value object I.point_x) >>= K.from_string_pixel
  let y ← (value object I.point_y) >>= K.from_string_pixel
  pure ⟨x, y⟩

/-- `object::read_points` (read.cpp 475-479). -/
def read_points (I : Tmx_info) (K : Collaborators) (poly : Xml.Element) :
    Except Error (List (Point K.Pixel)) := do
  let points ← value poly I.object_polygon_points
  transform K.to_point (K.tokenize points " ")

/-- `object::read_shape` (read.cpp 481-498). -/
def read_shape (I : Tmx_info) (K : Collaborators) (object : Xml.Element) :
    Except Error (Option (Object.Shape K)) :=
  match object.optional_child I.object_polyline with
  | some polyline => (read_points I K polyline).map (fun p => some (.Polyline p))
  | none =>
    match object.optional_child I.object_polygon with
    | some polygon => (read_points I K polygon).map (fun p => some (.Polygon p))
    | none => do
      let size ← read_optional_size I K object
      match size with
      | none => pure none
      | some size =>
        if (object.optional_child I.object_ellipse).isSome then pure (some (.Ellipse size))
        else pure (some (.Rectangle size))

/-- `object::read_clockwise_rotation` (read.cpp 500-505). -/
def read_clockwise_rotation (I : Tmx_info) (K : Collaborators) (object : Xml.Element) :
    Except Error K.Double :=
  match optional_value object I.object_clockwise_rotation with
  | some rotation => K.from_string_double rotation
  | none => .ok K.double.zero

/-- `object::read_global_id` (read.cpp 507-512). -/
def read_global_id (I : Tmx_info) (K : Collaborators) (object : Xml.Element) :
    Except Error (Option Nat) :=
  match optional_value object I.object_global_id with
  | some global_id => (K.from_string_global_tile_id global_id).map some
  | none => .ok none

/-- `object::read_visible` (read.cpp 514-517). -/
def read_visible (I : Tmx_info) (K : Collaborators) (object : Xml.Element) :
    Except Error Bool :=
  layer.read_visible I K object

/-- `object::read_object` (read.cpp 519-526). -/
def read_object (I : Tmx_info) (K : Collaborators) (object : Xml.Element) :
    Except Error (Object K) := do
  let unique_id ← read_unique_id I K object
  let name := read_name I object
  let type := read_type I object
  let position ← read_position I K object
  let shape ← read_shape I K object
  let clockwise_rotation ← read_clockwise_rotation I K object
  let global_id ← read_global_id I K object
  let visible ← read_visible I K object
  let properties ← properties.read_properties I K object
  pure ⟨unique_id, name, type, position, shape, clockwise_rotation, global_id, visible,
    properties⟩

end object

namespace object_layer

/-- `object_layer::read_color` (read.cpp 534-539). -/
def read_color (I : Tmx_info) (K : Collaborators) (object_layer : Xml.Element) :
    Except Error (Option K.Color) :=
  match optional_value object_layer I.object_layer_color with
  | some color => (K.to_color color).map some
  | none => .ok none

/-- `object_layer::read_draw_order` (read.cpp 541-551). -/
def read_draw_order (I : Tmx_info) (object_layer : Xml.Element) :
    Except Error Object_layer.Draw_order :=
  match optional_value object_layer I.object_layer_draw_order with
  | none => .ok .top_down
  | some draw_order =>
    if draw_order = I.object_layer_draw_order_top_down then .ok .top_down
    else if draw_order = I.object_layer_draw_order_index then .ok .index
    else .error (.Invalid_attribute I.object_layer_draw_order (some draw_order))

/-- `object_layer::read_objects` (read.cpp 553-557). -/
def read_objects (I : Tmx_info) (K : Collaborators) (object_layer : Xml.Element) :
    Except Error (List (Object K)) :=
  transform (object.read_object I K) (object_layer.children I.object)

/-- `object_layer::read_object_layer` (read.cpp 559-563). -/
def read_object_layer (I : Tmx_info) (K : Collaborators) (object_layer : Xml.Element) :
    Except Error (Object_layer K) := do
  let layer ← layer.read_layer I K object_layer
  let color ← read_color I K object_layer
  let draw_order ← read_draw_order I object_layer
  let objects ← read_objects I K object_layer
  pure ⟨layer, color, draw_order, objects⟩

end object_layer

namespace tile_set

/-- `tile_set::read_first_id` (read.cpp 173-176). -/
def read_first_id (I : Tmx_info) (K : Collaborators) (tile_set : Xml.Element) :
    Except Error Nat :=
  (value tile_set I.tile_set_first_id) >>= K.from_string_global_tile_id

/-- `tile_set::read_tsx` (read.cpp 178-183). -/
def read_tsx (I : Tmx_info) (tile_set : Xml.Element) : File :=
  match optional_value tile_set I.tile_set_tsx with
  | some tsx => tsx
  | none => ""

/-- `tile_set::read_name` (read.cpp 185-190). -/
def read_name (I : Tmx_info) (tile_set : Xml.Element) : String :=
  match optional_value tile_set I.tile_set_name with
  | some name => name
  | none => ""

/-- `tile_set::read_tile_count` (read.cpp 192-196). -/
def read_tile_count (I : Tmx_info) (K : Collaborators) (tile_set : Xml.Element) :
    Except Error Int := do
  let n ← (value tile_set I.tile_set_tile_count) >>= K.from_string_int
  Non_negative int_arithmetic n

/-- `tile_set::read_columns` (read.cpp 198-202). -/
def read_columns (I : Tmx_info) (K : Collaborators) (tile_set : Xml.Element) :
    Except Error Int := do
  let n ← (value tile_set I.tile_set_columns) >>= K.from_string_int
  Non_negative int_arithmetic n

/-- `tile_set::read_tile_offset` (read.cpp 204-213). -/
def read_tile_offset (I : Tmx_info) (K : Collaborators) (tile_set : Xml.Element) :
    Except Error (Point K.Pixel) :=
  match tile_set.optional_child I.tile_offset with
  | none => .ok ⟨K.pixel.zero, K.pixel.zero⟩
  | some tile_offset => do
    let x ← (value tile_offset I.tile_offset_x) >>= K.from_string_pixel
    let y ← (value tile_offset I.tile_offset_y) >>= K.from_string_pixel
    pure ⟨x, y⟩

/-- `tile_set::read_tile_id` (read.cpp 215-218). -/
def read_tile_id (I : Tmx_info) (K : Collaborators) (tile : Xml.Element) : Except Error Nat :=
  (value tile I.tile_set_tile_id) >>= K.from_string_local_tile_id

/-- `tile_set::read_tile_collision_shape` (read.cpp 220-225). -/
def read_tile_collision_shape (I : Tmx_info) (K : Collaborators) (tile : Xml.Element) :
    Except Error (Option (Object_layer K)) :=
  match tile.optional_child I.object_layer with
  | some collision_shape => (object_layer.read_object_layer I K collision_shape).map some
  | none => .ok none

namespace tile_set

/-- `tile_set::tile_set::read_spacing` (read.cpp 229-234). -/
def read_spacing (I : Tmx_info) (K : Collaborators) (tile_set : Xml.Element) :
    Except Error K.Pixel := do
  let spacing ← match optional_value tile_set I.tile_set_spacing with
    | some spacing => K.from_string_pixel spacing
    | none => .ok K.pixel.zero
  Non_negative K.pixel spacing

/-- `tile_set::tile_set::read_margin` (read.cpp 236-241). -/
def read_margin (I : Tmx_info) (K : Collaborators) (tile_set : Xml.Element) :
    Except Error K.Pixel := do
  let margin ← match optional_value tile_set I.tile_set_margin with
    | some margin => K.from_string_pixel margin
    | none => .ok K.pixel.zero
  Non_negative K.pixel margin

/-- `tile_set::tile_set::read_size` (read.cpp 243-252); `/` on `int` truncates. -/
def read_size (I : Tmx_info) (K : Collaborators) (tile_set : Xml.Element) :
    Except Error (Size Int) := do
  let tile_count ← read_tile_count I K tile_set
  let columns ← read_columns I K tile_set
  if columns = 0 then
    .error (.Exception "Invalid tile set columns value: 0")
  else do
    let w ← Positive int_arithmetic columns
    let h ← Positive int_arithmetic (Int.tdiv tile_count columns)
    pure ⟨w, h⟩

/-- `tile_set::tile_set::read_tile` (read.cpp 254-258). -/
def read_tile (I : Tmx_info) (K : Collaborators) (tile : Xml.Element) :
    Except Error (Tile_set.Tile K) := do
  let id ← read_tile_id I K tile
  let properties ← properties.read_properties I K tile
  let collision_shape ← read_tile_collision_shape I K tile
  let animation ← animation.read_animation I K tile
  pure ⟨id, properties, collision_shape, animation⟩

/-- `tile_set::tile_set::read_tiles` (read.cpp 260-264). -/
def read_tiles (I : Tmx_info) (K : Collaborators) (tile_set : Xml.Element) :
    Except Error (List (Tile_set.Tile K)) :=
  transform (read_tile I K) (tile_set.children I.tile_set_tile)

/-- `tile_set::tile_set::read_tile_set` (read.cpp 266-279). -/
def read_tile_set (I : Tmx_info) (K : Collaborators) (tile_set : Xml.Element)
    (first_id : Nat) (tsx : File) : Except Error (Tile_set K) := do
  let name := read_name I tile_set
  let tile_size ← read_tile_size I K tile_set
  let spacing ← read_spacing I K tile_set
  let margin ← read_margin I K tile_set
  let size ← read_size I K tile_set
  let tile_offset ← read_tile_offset I K tile_set
  let properties ← properties.read_properties I K tile_set
  let image ← (tile_set.child I.image) >>= image.read_image I K
  let tiles ← read_tiles I K tile_set
  pure ⟨first_id, tsx, name, tile_size, spacing, margin, size, tile_offset, properties,
    image, tiles⟩

end tile_set

namespace image_collection

/-- `tile_set::image_collection::read_tile` (read.cpp 285-290). -/
def read_tile (I : Tmx_info) (K : Collaborators) (tile : Xml.Element) :
    Except Error (Image_collection.Tile K) := do
  let id ← read_tile_id I K tile
  let properties ← properties.read_properties I K tile
  let image ← (tile.child I.image) >>= image.read_image I K
  let collision_shape ← read_tile_collision_shape I K tile
  let animation ← animation.read_animation I K tile
  pure ⟨id, properties, image, collision_shape, animation⟩

/-- `tile_set::image_collection::read_tiles` (read.cpp 292-296). -/
def read_tiles (I : Tmx_info) (K : Collaborators) (image_collection : Xml.Element) :
    Except Error (List (Image_collection.Tile K)) :=
  transform (read_tile I K) (image_collection.children I.tile_set_tile)

/-- `tile_set::image_collection::read_image_collection` (read.cpp 298-310). -/
def read_image_collection (I : Tmx_info) (K : Collaborators) (image_collection : Xml.Element)
    (first_id : Nat) (tsx : File) : Except Error (Image_collection K) := do
  let name := read_name I image_collection
  let tile_size ← read_tile_size I K image_collection
  let tile_count ← read_tile_count I K image_collection
  let columns ← read_columns I K image_collection
  let tile_offset ← read_tile_offset I K image_collection
  let properties ← properties.read_properties I K image_collection
  let tiles ← read_tiles I K image_collection
  pure ⟨first_id, tsx, name, tile_size, tile_count, columns, tile_offset, properties, tiles⟩

end image_collection

/-- `tile_set::is_tile_set` (read.cpp 314-320). -/
def is_tile_set (I : Tmx_info) (tile_set : Xml.Element) : Bool :=
  (tile_set.optional_child I.image).isSome

end tile_set

end impl

/-- `read_tsx` (read.cpp 729-745): the document at `absolute(tsx, base)` is
loaded and its root read as a tile set or an image collection. -/
def read_tsx (I : Tmx_info) (K : Collaborators) (first_id : Nat) (tsx : File) (base : String) :
    Except Error (Map.Tile_set K) :=
  impl.rethrow_invalid_argument (do
    let tile_set ← K.load (K.absolute tsx base)
    if tile_set.name ≠ I.tile_set then
      .error (.Invalid_element tile_set.name none)
    else if impl.tile_set.is_tile_set I tile_set then
      (impl.tile_set.tile_set.read_tile_set I K tile_set first_id tsx).map .tile_set
    else
      (impl.tile_set.image_collection.read_image_collection I K tile_set first_id tsx).map
        .image_collection)

/-- `read_tile_set` (read.cpp 747-761). -/
def read_tile_set (I : Tmx_info) (K : Collaborators) (first_id : Nat) (tsx : File)
    (base : String) : Except Error (Tile_set K) :=
  impl.rethrow_invalid_argument (do
    let tile_set ← K.load (K.absolute tsx base)
    if tile_set.name = I.tile_set then
      impl.tile_set.tile_set.read_tile_set I K tile_set first_id tsx
    else
      .error (.Invalid_element tile_set.name none))

/-- `read_image_collection` (read.cpp 763-778). -/
def read_image_collection (I : Tmx_info) (K : Collaborators) (first_id : Nat) (tsx : File)
    (base : String) : Except Error (Image_collection K) :=
  impl.rethrow_invalid_argument (do
    let image_collection ← K.load (K.absolute tsx base)
    if image_collection.name = I.tile_set then
      impl.tile_set.image_collection.read_image_collection I K image_collection first_id tsx
    else
      .error (.Invalid_element image_collection.name none))

namespace impl

namespace tile_set

/-- `tile_set::read_map_tile_set` (read.cpp 322-335). -/
def read_map_tile_set (I : Tmx_info) (K : Collaborators) (tile_set : Xml.Element)
    (tsx_base : String) : Except Error (Map.Tile_set K) := do
  let first_id ← read_first_id I K tile_set
  let tsx := read_tsx I tile_set
  if tsx = "" then
    if is_tile_set I tile_set then
      (impl.tile_set.tile_set.read_tile_set I K tile_set first_id tsx).map .tile_set
    else
      (impl.tile_set.image_collection.read_image_collection I K tile_set first_id tsx).map
        .image_collection
  else
    tmxpp.read_tsx I K first_id tsx tsx_base

end tile_set

namespace data

/-- `data::read_encoding` (read.cpp 345-355). -/
def read_encoding (I : Tmx_info) (data : Xml.Element) : Except Error Data.Encoding := do
  let encoding ← value data I.data_encoding
  if encoding = I.data_encoding_csv then .ok .csv
  else if encoding = I.data_encoding_base64 then .ok .base64
  else .error (.Invalid_attribute I.data_encoding (some encoding))

/-- `data::read_compression` (read.cpp 357-367). -/
def read_compression (I : Tmx_info) (data : Xml.Element) : Except Error Data.Compression :=
  match optional_value data I.data_compression with
  | none => .ok .none
  | some compression =>
    if compression = I.data_compression_zlib then .ok .zlib
    else .error (.Invalid_attribute I.data_compression (some compression))

/-- `data::read_format` (read.cpp 369-372). -/
def read_format (I : Tmx_info) (data : Xml.Element) : Except Error Data.Format := do
  let encoding ← read_encoding I data
  let compression ← read_compression I data
  pure ⟨encoding, compression⟩

/-- `data::read_ids` (read.cpp 374-381). -/
def read_ids (K : Collaborators) (format : Data.Format) (data : String) :
    Except Error (List Nat) :=
  if K.format_ne format .csv then
    .error (.Exception "Can only handle csv-encoded data.")
  else
    transform K.to_data_flipped_id (K.tokenize data ",\n")

/-- `data::read_data` (read.cpp 383-388). -/
def read_data (I : Tmx_info) (K : Collaborators) (data : Xml.Element) : Except Error Data := do
  let format ← read_format I data
  let ids ← read_ids K format data.value
  pure ⟨format, ids⟩

end data

namespace tile_layer

/-- `tile_layer::read_tile_layer` (read.cpp 438-442). -/
def read_tile_layer (I : Tmx_info) (K : Collaborators) (tile_layer : Xml.Element) :
    Except Error (Tile_layer K) := do
  let layer ← layer.read_layer I K tile_layer
  let size ← read_isize I K tile_layer
  let data ← (tile_layer.child I.data) >>= data.read_data I K
  pure ⟨layer, size, data⟩

end tile_layer

namespace image_layer

/-- `image_layer::read_image` (read.cpp 569-574). -/
def read_image (I : Tmx_info) (K : Collaborators) (image_layer : Xml.Element) :
    Except Error (Option (Image K)) :=
  match image_layer.optional_child I.image with
  | some image => (impl.image.read_image I K image).map some
  | none => .ok none

/-- `image_layer::read_image_layer` (read.cpp 576-579). -/
def read_image_layer (I : Tmx_info) (K : Collaborators) (image_layer : Xml.Element) :
    Except Error (Image_layer K) := do
  let layer ← layer.read_layer I K image_layer
  let image ← read_image I K image_layer
  pure ⟨layer, image⟩

end image_layer

namespace map

/-- `map::read_version` (read.cpp 587-590). -/
def read_version (I : Tmx_info) (map : Xml.Element) : Except Error String :=
  value map I.map_version

/-- `map::read_axis` (read.cpp 592-602). -/
def read_axis (I : Tmx_info) (map : Xml.Element) : Except Error Map.Axis := do
  let axis ← value map I.map_staggered_axis
  if axis = I.map_staggered_axis_x then .ok .x
  else if axis = I.map_staggered_axis_y then .ok .y
  else .error (.Invalid_attribute I.map_staggered_axis (some axis))

/-- `map::read_index` (read.cpp 604-614). -/
def read_index (I : Tmx_info) (map : Xml.Element) : Except Error Map.Index := do
  let index ← value map I.map_staggered_index
  if index = I.map_staggered_index_even then .ok .even
  else if index = I.map_staggered_index_odd then .ok .odd
  else .error (.Invalid_attribute I.map_staggered_index (some index))

/-- `map::read_side_length` (read.cpp 616-619). -/
def read_side_length (I : Tmx_info) (K : Collaborators) (map : Xml.Element) :
    Except Error K.Pixel :=
  (value map I.map_hexagonal_side_legth) >>= K.from_string_pixel

/-- `map::read_orientation` (read.cpp 621-636). -/
def read_orientation (I : Tmx_info) (K : Collaborators) (map : Xml.Element) :
    Except Error (Map.Orientation K) := do
  let orientation ← value map I.map_orientation
  if orientation = I.map_orthogonal then .ok .Orthogonal
  else if orientation = I.map_isometric then .ok .Isometric
  else if orientation = I.map_staggered then do
    let axis ← read_axis I map
    let index ← read_index I map
    pure (.Staggered axis index)
  else if orientation = I.map_hexagonal then do
    let axis ← read_axis I map
    let index ← read_index I map
    let side_length ← read_side_length I K map
    pure (.Hexagonal axis index side_length)
  else .error (.Invalid_attribute I.map_orientation (some orientation))

/-- `map::read_render_order` (read.cpp 638-652). -/
def read_render_order (I : Tmx_info) (map : Xml.Element) : Except Error Map.Render_order :=
  match optional_value map I.map_render_order with
  | none => .ok .right_down
  | some render_order =>
    if render_order = I.map_render_order_right_down then .ok .right_down
    else if render_order = I.map_render_order_right_up then .ok .right_up
    else if render_order = I.map_render_order_left_down then .ok .left_down
    else if render_order = I.map_render_order_left_up then .ok .left_up
    else .error (.Invalid_attribute I.map_render_order (some render_order))

/-- `map::read_background` (read.cpp 654-659). -/
def read_background (I : Tmx_info) (K : Collaborators) (map : Xml.Element) :
    Except Error (Option K.Color) :=
  match optional_value map I.map_background with
  | some color => (K.to_color color).map some
  | none => .ok none

/-- `map::read_next_id` (read.cpp 661-664). -/
def read_next_id (I : Tmx_info) (K : Collaborators) (map : Xml.Element) : Except Error Int :=
  (value map I.map_next_id) >>= K.from_string_unique_id

/-- `map::read_tile_sets` (read.cpp 666-673). -/
def read_tile_sets (I : Tmx_info) (K : Collaborators) (map : Xml.Element) (tsx_base : String) :
    Except Error (List (Map.Tile_set K)) :=
  transform (fun tile_set => impl.tile_set.read_map_tile_set I K tile_set tsx_base)
    (map.children I.tile_set)

/-- `map::read_layer` (read.cpp 675-687). -/
def read_layer (I : Tmx_info) (K : Collaborators) (layer : Xml.Element) :
    Except Error (Map.Layer K) :=
  let name := layer.name
  if name = I.tile_layer then
    (tile_layer.read_tile_layer I K layer).map .tile_layer
  else if name = I.object_layer then
    (object_layer.read_object_layer I K layer).map .object_layer
  else if name = I.image_layer then
    (image_layer.read_image_layer I K layer).map .image_layer
  else .error (.Invalid_element name none)

/-- `map::read_layers` (read.cpp 689-696). -/
def read_layers (I : Tmx_info) (K : Collaborators) (map : Xml.Element) :
    Except Error (List (Map.Layer K)) :=
  transform (read_layer I K) (children map [I.tile_layer, I.object_layer, I.image_layer])

/-- `map::read_map` (read.cpp 698-706). -/
def read_map (I : Tmx_info) (K : Collaborators) (map : Xml.Element) (tsx_base : String) :
    Except Error (Map K) := do
  let version ← read_version I map
  let orientation ← read_orientation I K map
  let render_order ← read_render_order I map
  let size ← read_isize I K map
  let tile_size ← read_tile_size I K map
  let background ← read_background I K map
  let next_id ← read_next_id I K map
  let properties ← properties.read_properties I K map
  let tile_sets ← read_tile_sets I K map tsx_base
  let layers ← read_layers I K map
  pure ⟨version, orientation, render_order, size, tile_size, background, next_id, properties,
    tile_sets, layers⟩

end map

end impl

/-- `read_tmx` (read.cpp 715-727). -/
def read_tmx (I : Tmx_info) (K : Collaborators) (path : String) : Except Error (Map K) :=
  impl.rethrow_invalid_argument (do
    let map ← K.load path
    if map.name = I.map then
      impl.map.read_map I K map (K.parent_path path)
    else
      .error (.Invalid_element map.name none))

/-! ## A concrete instance

The names of the TMX format and a small set of collaborators over the integers,
on which the readers can be evaluated. -/

/-- The tag names, attribute names and attribute values of the TMX format. -/
def tmx : Tmx_info where
  size_width := "width"
  size_height := "height"
  tile_size_width := "tilewidth"
  tile_size_height := "tileheight"
  properties := "properties"
  property := "property"
  property_name := "name"
  property_value := "value"
  property_alternative := "type"
  property_alternative_string := "string"
  property_alternative_int := "int"
  property_alternative_double := "float"
  property_alternative_bool := "bool"
  property_alternative_color := "color"
  property_alternative_file := "file"
  property_value_true := "true"
  property_value_false := "false"
  image := "image"
  image_source := "source"
  image_transparent := "trans"
  animation := "animation"
  frame := "frame"
  frame_id := "tileid"
  frame_duration := "duration"
  tile_set := "tileset"
  tile_set_first_id := "firstgid"
  tile_set_tsx := "source"
  tile_set_name := "name"
  tile_set_tile_count := "tilecount"
  tile_set_columns := "columns"
  tile_set_spacing := "spacing"
  tile_set_margin := "margin"
  tile_set_tile := "tile"
  tile_set_tile_id := "id"
  tile_offset := "tileoffset"
  tile_offset_x := "x"
  tile_offset_y := "y"
  data := "data"
  data_encoding := "encoding"
  data_encoding_csv := "csv"
  data_encoding_base64 := "base64"
  data_compression := "compression"
  data_compression_zlib := "zlib"
  layer_name := "name"
  layer_opacity := "opacity"
  layer_visible := "visible"
  offset_x := "offsetx"
  offset_y := "offsety"
  tile_layer := "layer"
  object_layer := "objectgroup"
  object_layer_color := "color"
  object_layer_draw_order := "draworder"
  object_layer_draw_order_top_down := "topdown"
  object_layer_draw_order_index := "index"
  object := "object"
  object_unique_id := "id"
  object_name := "name"
  object_type := "type"
  point_x := "x"
  point_y := "y"
  object_polyline := "polyline"
  object_polygon := "polygon"
  object_polygon_points := "points"
  object_ellipse := "ellipse"
  object_clockwise_rotation := "rotation"
  object_global_id := "gid"
  image_layer := "imagelayer"
  map := "map"
  map_version := "version"
  map_orientation := "orientation"
  map_orthogonal := "orthogonal"
  map_isometric := "isometric"
  map_staggered := "staggered"
  map_hexagonal := "hexagonal"
  map_staggered_axis := "staggeraxis"
  map_staggered_axis_x := "x"
  map_staggered_axis_y := "y"
  map_staggered_index := "staggerindex"
  map_staggered_index_even := "even"
  map_staggered_index_odd := "odd"
  map_hexagonal_side_legth := "hexsidelength"
  map_render_order := "renderorder"
  map_render_order_right_down := "right-down"
  map_render_order_right_up := "right-up"
  map_render_order_left_down := "left-down"
  map_render_order_left_up := "left-up"
  map_background := "backgroundcolor"
  map_next_id := "nextobjectid"

/-- The value of a non-empty string of decimal digits. -/
def decimal (cs : List Char) : Option Nat :=
  match cs with
  | [] => none
  | _ => cs.foldl (fun acc c =>
      match acc with
      | some n => if c.isDigit then some (10 * n + (c.toNat - 48)) else none
      | none => none) (some 0)

/-- An unsigned decimal literal. -/
def sample_unsigned (s : String) : Except Error Nat :=
  match decimal s.data with
  | some n => .ok n
  | none => .error (.Exception ("Could not convert: " ++ s))

/-- A decimal literal with an optional minus sign. -/
def sample_signed (s : String) : Except Error Int :=
  match s.data with
  | '-' :: cs =>
    match decimal cs with
    | some n => .ok (-(n : Int))
    | none => .error (.Exception ("Could not convert: " ++ s))
  | cs =>
    match decimal cs with
    | some n => .ok (n : Int)
    | none => .error (.Exception ("Could not convert: " ++ s))

/-- The literals `1` and `0` as booleans. -/
def sample_bool (s : String) : Except Error Bool :=
  if s = "1" then .ok true
  else if s = "0" then .ok false
  else .error (.Exception ("Could not convert: " ++ s))

/-- The pieces of a text between delimiter characters. -/
def sample_pieces (delimiters : List Char) : List Char → List (List Char)
  | [] => [[]]
  | c :: cs =>
    if c ∈ delimiters then [] :: sample_pieces delimiters cs
    else
      match sample_pieces delimiters cs with
      | t :: ts => (c :: t) :: ts
      | [] => [[c]]

/-- The tokens of a text between delimiter characters. -/
def sample_tokenize (s : String) (delimiters : String) : List String :=
  (sample_pieces delimiters.data s.data).map String.mk

/-- A point literal `x,y`. -/
def sample_point (s : String) : Except Error (Point Int) :=
  match sample_tokenize s "," with
  | [x, y] => do
    let px ← sample_signed x
    let py ← sample_signed y
    pure ⟨px, py⟩
  | _ => .error (.Exception ("Could not convert: " ++ s))

/-- Collaborators over the integers: pixels and doubles are integers, a colour
is its text, and the documents that can be loaded are those of `files`, each
under its path. -/
def sample (files : List (String × Xml.Element)) : Collaborators where
  Pixel := Int
  Double := Int
  Color := String
  pixel := int_arithmetic
  double := int_arithmetic
  double_one := 1
  from_string_int := sample_signed
  from_string_double := sample_signed
  from_string_bool := sample_bool
  from_string_pixel := sample_signed
  from_string_rep := sample_signed
  from_string_local_tile_id := sample_unsigned
  from_string_global_tile_id := sample_unsigned
  from_string_unique_id := sample_signed
  to_color := fun s => .ok s
  to_point := sample_point
  to_data_flipped_id := sample_unsigned
  tokenize := sample_tokenize
  format_ne := fun f e => decide (f ≠ ⟨e, .none⟩)
  absolute := fun tsx base => base ++ "/" ++ tsx
  parent_path := fun _ => "."
  load := fun path =>
    match files.lookup path with
    | some root => .ok root
    | none => .error (.Exception ("Could not load: " ++ path))

/-- A sheet tile-set element (one direct image child) with the given texts for
its tile-count and columns attributes. -/
def sample_sheet (tile_count columns : String) : Xml.Element :=
  .mk "tileset"
    [("firstgid", "1"), ("name", "tiles"), ("tilewidth", "16"), ("tileheight", "16"),
      ("tilecount", tile_count), ("columns", columns)] ""
    [.mk "image" [("source", "tiles.png"), ("width", "64"), ("height", "32")] "" []]

/-- An orthogonal 2 by 2 map element with the given children. -/
def sample_map (nodes : List Xml.Element) : Xml.Element :=
  .mk "map"
    [("version", "1.0"), ("orientation", "orthogonal"), ("width", "2"), ("height", "2"),
      ("tilewidth", "16"), ("tileheight", "16"), ("nextobjectid", "1")] "" nodes

/-- An image-collection tile-set element: no direct image child, two tiles that
each carry their own image. -/
def sample_collection : Xml.Element :=
  .mk "tileset"
    [("firstgid", "9"), ("name", "pieces"), ("tilewidth", "16"), ("tileheight", "16"),
      ("tilecount", "2"), ("columns", "0")] ""
    [.mk "tile" [("id", "0")] "" [.mk "image" [("source", "a.png")] "" []],
     .mk "tile" [("id", "1")] "" [.mk "image" [("source", "b.png")] "" []]]

/-- A property element with the given attributes and text body. -/
def sample_property (attributes : List (String × String)) (text : String) : Xml.Element :=
  .mk "property" attributes text []

/-- A tile-set reference element of a map: a first id, a source, and whatever
else is given. -/
def sample_reference (first_id source : String) (others : List (String × String))
    (nodes : List Xml.Element) : Xml.Element :=
  .mk "tileset" (("firstgid", first_id) :: ("source", source) :: others) "" nodes

/-- The root of an external tile-set document that itself carries a first id
and a source: the sheet of `sample_sheet "8" "4"` with `firstgid="77"` and
`source="elsewhere.tsx"`. -/
def sample_root_with_source : Xml.Element :=
  .mk "tileset"
    [("firstgid", "77"), ("source", "elsewhere.tsx"), ("name", "tiles"), ("tilewidth", "16"),
      ("tileheight", "16"), ("tilecount", "8"), ("columns", "4")] ""
    [.mk "image" [("source", "tiles.png"), ("width", "64"), ("height", "32")] "" []]

/-- `operator==(Frame, Frame)` (Frame.hpp 16-19). -/
def Frame.operator_eq (l r : Frame) : Bool :=
  l.id == r.id && l.duration == r.duration

/-- `operator!=(Frame, Frame)` (Frame.hpp 21-24). -/
def Frame.operator_ne (l r : Frame) : Bool :=
  !(Frame.operator_eq l r)

/-- `operator==(Size<N>, Size<N>)` (Size.hpp 20-24); `==` on a dimension
compares the wrapped numbers. -/
def Size.operator_eq {N : Type} [BEq N] (l r : Size N) : Bool :=
  l.w == r.w && l.h == r.h

/-- `operator!=(Size<N>, Size<N>)` (Size.hpp 26-30). -/
def Size.operator_ne {N : Type} [BEq N] (l r : Size N) : Bool :=
  !(Size.operator_eq l r)

/-- An object element with the given attributes and children. -/
def sample_object (attributes : List (String × String)) (nodes : List Xml.Element) :
    Xml.Element :=
  .mk "object" (("id", "1") :: ("x", "0") :: ("y", "0") :: attributes) "" nodes

/-- A polyline or polygon child with the given tag and points. -/
def sample_poly (tag points : String) : Xml.Element :=
  .mk tag [("points", points)] "" []

namespace impl

/-- The pieces of a text between delimiter characters, in text order; two
delimiters in a row have an empty piece between them. -/
def pieces (delimiters : List Char) : List Char → List (List Char)
  | [] => [[]]
  | c :: cs =>
    if c ∈ delimiters then [] :: pieces delimiters cs
    else
      match pieces delimiters cs with
      | t :: ts => (c :: t) :: ts
      | [] => [[c]]

/-- Modelled from the spec: `tokenize(text, delimiters)` of the missing
`read_utility.hpp`: the text is split on the delimiter characters, and each
piece, an empty one as well, is a token. -/
def tokenize (text delimiters : String) : List String :=
  (pieces delimiters.data text.data).map String.mk

/-- A text without its leading and trailing white space. -/
def trim (cs : List Char) : List Char :=
  ((cs.dropWhile Char.isWhitespace).reverse.dropWhile Char.isWhitespace).reverse

/-- Modelled from the spec: `to_data_flipped_id` of the missing
`to_data_flipped_id.hpp`: the token is trimmed and parsed as an unsigned
32-bit integer, which is the flipped global id; a token that is no such
literal is a text-conversion failure, an `Exception`. -/
def to_data_flipped_id (token : String) : Except Error Nat :=
  match decimal (trim token.data) with
  | some n =>
    if n < 2 ^ 32 then .ok n else .error (.Exception ("Could not convert: " ++ token))
  | none => .error (.Exception ("Could not convert: " ++ token))

end impl

/-- The collaborators `sample []` with the tokens and the flipped ids of the
layer data as the spec has them. -/
def sample_csv : Collaborators :=
  { sample [] with tokenize := impl.tokenize, to_data_flipped_id := impl.to_data_flipped_id }

/-- A data element with the given attributes and payload. -/
def sample_data (attributes : List (String × String)) (payload : String) : Xml.Element :=
  .mk "data" attributes payload []

/-- An image-collection tile-set element with the given attributes: no direct
image child, two tiles that each carry their own image. -/
def sample_collection_of (attributes : List (String × String)) : Xml.Element :=
  .mk "tileset" attributes ""
    [.mk "tile" [("id", "0")] "" [.mk "image" [("source", "a.png")] "" []],
     .mk "tile" [("id", "1")] "" [.mk "image" [("source", "b.png")] "" []]]

/-- A map element with the given attributes and no children. -/
def sample_map_of (attributes : List (String × String)) : Xml.Element :=
  .mk "map" attributes "" []

/-- An animation frame element with the given tile id and duration texts. -/
def sample_frame (id duration : String) : Xml.Element :=
  .mk "frame" [("tileid", id), ("duration", duration)] "" []

/-- A sheet tile-set element with the given attributes beside its tile size
(one direct image child). -/
def sample_sheet_of (attributes : List (String × String)) : Xml.Element :=
  .mk "tileset" (("tilewidth", "16") :: ("tileheight", "16") :: attributes) ""
    [.mk "image" [("source", "tiles.png")] "" []]

/-- A layer element with the given tag and attributes and no children. -/
def sample_layer (tag : String) (attributes : List (String × String)) : Xml.Element :=
  .mk tag attributes "" []

/-- The paths of the documents loaded so far, in loading order: the state that
every `impl::Xml xml{path}` of `read.cpp` extends by `path`. -/
abbrev Loaded := List String

/-- `read_tsx` (read.cpp 729-745) with the loaded documents passed along: its
one `impl::Xml` is constructed first, for `absolute(tsx, base)`, and nothing
that it calls on the root constructs another. -/
def read_tsx_loading (I : Tmx_info) (K : Collaborators) (first_id : Nat) (tsx : File)
    (base : String) (loaded : Loaded) : Loaded × Except Error (Map.Tile_set K) :=
  (loaded ++ [K.absolute tsx base], read_tsx I K first_id tsx base)

namespace impl

/-- `transform` over a function that passes the loaded documents along: the
elements are handled in order, each from the state the one before left, up to
the first exception. -/
def transform_loading {α β : Type} (f : α → Loaded → Loaded × Except Error β) :
    List α → Loaded → Loaded × Except Error (List β)
  | [], loaded => (loaded, .ok [])
  | a :: as, loaded =>
    match f a loaded with
    | (loaded, .error e) => (loaded, .error e)
    | (loaded, .ok b) =>
      match transform_loading f as loaded with
      | (loaded, .error e) => (loaded, .error e)
      | (loaded, .ok bs) => (loaded, .ok (b :: bs))

/-- `tile_set::read_map_tile_set` (read.cpp 322-335) with the loaded documents
passed along: only the call of `read_tsx` loads one. -/
def tile_set.read_map_tile_set_loading (I : Tmx_info) (K : Collaborators)
    (el : Xml.Element) (tsx_base : String) (loaded : Loaded) :
    Loaded × Except Error (Map.Tile_set K) :=
  match tile_set.read_first_id I K el with
  | .error e => (loaded, .error e)
  | .ok first_id =>
    let tsx := tile_set.read_tsx I el
    if tsx = "" then
      (loaded,
        if tile_set.is_tile_set I el then
          (tile_set.tile_set.read_tile_set I K el first_id tsx).map .tile_set
        else
          (tile_set.image_collection.read_image_collection I K el first_id tsx).map
            .image_collection)
    else
      read_tsx_loading I K first_id tsx tsx_base loaded

/-- `map::read_tile_sets` (read.cpp 666-673) with the loaded documents passed
along. -/
def map.read_tile_sets_loading (I : Tmx_info) (K : Collaborators) (el : Xml.Element)
    (tsx_base : String) (loaded : Loaded) : Loaded × Except Error (List (Map.Tile_set K)) :=
  transform_loading (fun ts => tile_set.read_map_tile_set_loading I K ts tsx_base)
    (el.children I.tile_set) loaded

/-- `map::read_map` (read.cpp 698-706) with the loaded documents passed along:
the members before the tile sets and the layers after them load nothing. -/
def map.read_map_loading (I : Tmx_info) (K : Collaborators) (el : Xml.Element)
    (tsx_base : String) (loaded : Loaded) : Loaded × Except Error (Map K) :=
  let head : Except Error (String × Map.Orientation K × Map.Render_order × Size Int ×
      Size K.Pixel × Option K.Color × Int × Properties K) := do
    let version ← map.read_version I el
    let orientation ← map.read_orientation I K el
    let render_order ← map.read_render_order I el
    let size ← read_isize I K el
    let tile_size ← read_tile_size I K el
    let background ← map.read_background I K el
    let next_id ← map.read_next_id I K el
    let properties ← properties.read_properties I K el
    pure (version, orientation, render_order, size, tile_size, background, next_id, properties)
  match head with
  | .error e => (loaded, .error e)
  | .ok (version, orientation, render_order, size, tile_size, background, next_id,
      properties) =>
    match map.read_tile_sets_loading I K el tsx_base loaded with
    | (loaded, .error e) => (loaded, .error e)
    | (loaded, .ok tile_sets) =>
      (loaded, (map.read_layers I K el).map (fun layers =>
        ⟨version, orientation, render_order, size, tile_size, background, next_id, properties,
          tile_sets, layers⟩))

end impl

/-- A tile-set document whose root names the document itself as its source: the
sheet of `sample_sheet "8" "4"` with `source="a.tsx"`. -/
def sample_cyclic_root : Xml.Element :=
  .mk "tileset"
    [("firstgid", "1"), ("source", "a.tsx"), ("name", "tiles"), ("tilewidth", "16"),
      ("tileheight", "16"), ("tilecount", "8"), ("columns", "4")] ""
    [.mk "image" [("source", "tiles.png"), ("width", "64"), ("height", "32")] "" []]

/-- A tile-set element of a map with the given attributes and one direct image
child. -/
def sample_embedded (attributes : List (String × String)) : Xml.Element :=
  .mk "tileset" attributes "" [.mk "image" [("source", "tiles.png")] "" []]

/-! ## Lemmas on exceptions and `transform` -/

namespace impl

theorem bind_fails_left {α β : Type} {x : Except Error α} (f : α → Except Error β)
    (h : ∃ e, x = .error e) : ∃ e, (x >>= f) = .error e := by
  obtain ⟨e, rfl⟩ := h
  exact ⟨e, rfl⟩

theorem bind_fails_right {α β : Type} (x : Except Error α) {f : α → Except Error β}
    (h : ∀ a, ∃ e, f a = .error e) : ∃ e, (x >>= f) = .error e := by
  cases x with
  | error e => exact ⟨e, rfl⟩
  | ok a => exact h a

theorem map_fails {α β : Type} {x : Except Error α} (f : α → β)
    (h : ∃ e, x = .error e) : ∃ e, x.map f = .error e := by
  obtain ⟨e, rfl⟩ := h
  exact ⟨e, rfl⟩

theorem transform_fails_of_mem {α β : Type} (f : α → Except Error β) (l : List α) (a : α)
    (ha : a ∈ l) (h : ∃ e, f a = .error e) : ∃ e, transform f l = .error e := by
  induction l with
  | nil => cases ha
  | cons b l ih =>
    simp only [transform]
    rcases List.mem_cons.mp ha with rfl | hmem
    · exact bind_fails_left _ h
    · refine bind_fails_right _ (fun b => bind_fails_left _ (ih hmem))

theorem rethrow_fails {α : Type} {r : Except Error α} (h : ∃ e, r = .error e) :
    ∃ e, rethrow_invalid_argument r = .error e := by
  obtain ⟨e, rfl⟩ := h
  cases e <;> simp [rethrow_invalid_argument]

end impl

/-! ## C1: a tile set with `columns = 0` is rejected -/

namespace impl

theorem read_columns_zero (I : Tmx_info) (K : Collaborators) (el : Xml.Element)
    (v : String) (hv : optional_value el I.tile_set_columns = some v)
    (h0 : K.from_string_int v = .ok 0) : tile_set.read_columns I K el = .ok 0 := by
  simp [tile_set.read_columns, value, hv, h0, Non_negative, int_arithmetic, bind, Except.bind]

theorem read_size_columns_zero (I : Tmx_info) (K : Collaborators) (el : Xml.Element)
    (v : String) (hv : optional_value el I.tile_set_columns = some v)
    (h0 : K.from_string_int v = .ok 0) :
    ∃ e, tile_set.tile_set.read_size I K el = .error e := by
  unfold tile_set.tile_set.read_size
  refine bind_fails_right _ (fun tile_count => ?_)
  rw [read_columns_zero I K el v hv h0]
  exact ⟨_, rfl⟩

theorem read_tile_set_columns_zero (I : Tmx_info) (K : Collaborators) (el : Xml.Element)
    (v : String) (hv : optional_value el I.tile_set_columns = some v)
    (h0 : K.from_string_int v = .ok 0) (first_id : Nat) (tsx : File) :
    ∃ e, tile_set.tile_set.read_tile_set I K el first_id tsx = .error e := by
  unfold tile_set.tile_set.read_tile_set
  refine bind_fails_right _ (fun _ => bind_fails_right _ (fun _ => bind_fails_right _ (fun _ =>
    bind_fails_left _ (read_size_columns_zero I K el v hv h0))))

theorem read_map_tile_set_columns_zero (I : Tmx_info) (K : Collaborators)
    (el : Xml.Element) (v : String)
    (hv : optional_value el I.tile_set_columns = some v)
    (h0 : K.from_string_int v = .ok 0)
    (himage : tile_set.is_tile_set I el = true) (htsx : tile_set.read_tsx I el = "")
    (tsx_base : String) : ∃ e, tile_set.read_map_tile_set I K el tsx_base = .error e := by
  unfold tile_set.read_map_tile_set
  refine bind_fails_right _ (fun first_id => ?_)
  simp only [htsx, himage, if_true]
  exact map_fails _ (read_tile_set_columns_zero I K el v hv h0 first_id "")

end impl

/-- C1: a sheet tile-set element whose `columns` attribute parses to 0 is
rejected: `read_size` throws, so `read_tile_set` throws for every first id and
source, and, when the element is embedded (it has a direct image child and no
or an empty source attribute), `read_map_tile_set` throws and `read_map` throws
on every map element that has it among its tile-set children. Nothing is
assumed about the tile-count attribute. -/
theorem columns_zero_fails (I : Tmx_info) (K : Collaborators) (el : Xml.Element)
    (v : String) (hv : impl.optional_value el I.tile_set_columns = some v)
    (h0 : K.from_string_int v = .ok 0) :
    (∃ e, impl.tile_set.tile_set.read_size I K el = .error e) ∧
    (∀ first_id tsx, ∃ e,
      impl.tile_set.tile_set.read_tile_set I K el first_id tsx = .error e) ∧
    (impl.tile_set.is_tile_set I el = true → impl.tile_set.read_tsx I el = "" →
      (∀ tsx_base, ∃ e, impl.tile_set.read_map_tile_set I K el tsx_base = .error e) ∧
      (∀ (map : Xml.Element) tsx_base, el ∈ map.children I.tile_set →
        ∃ e, impl.map.read_map I K map tsx_base = .error e)) := by
  refine ⟨impl.read_size_columns_zero I K el v hv h0,
    impl.read_tile_set_columns_zero I K el v hv h0, fun himage htsx => ⟨
    impl.read_map_tile_set_columns_zero I K el v hv h0 himage htsx, ?_⟩⟩
  intro map tsx_base hmem
  unfold impl.map.read_map
  refine impl.bind_fails_right _ (fun _ => impl.bind_fails_right _ (fun _ =>
    impl.bind_fails_right _ (fun _ => impl.bind_fails_right _ (fun _ =>
    impl.bind_fails_right _ (fun _ => impl.bind_fails_right _ (fun _ =>
    impl.bind_fails_right _ (fun _ => impl.bind_fails_right _ (fun _ =>
    impl.bind_fails_left _ ?_))))))))
  exact impl.transform_fails_of_mem _ _ el hmem
    (impl.read_map_tile_set_columns_zero I K el v hv h0 himage htsx tsx_base)

/-- A witness of C1: the sheet tile set with `columns="0"` and `tilecount="4"`,
alone and as the tile set of a map. -/
theorem columns_zero_fails_witness :
    impl.optional_value (sample_sheet "4" "0") tmx.tile_set_columns = some "0" ∧
    (sample []).from_string_int "0" = .ok 0 ∧
    (∃ e, impl.tile_set.tile_set.read_size tmx (sample []) (sample_sheet "4" "0") = .error e) ∧
    (∃ e, impl.tile_set.tile_set.read_tile_set tmx (sample []) (sample_sheet "4" "0") 1 ""
      = .error e) ∧
    (∃ e, impl.map.read_map tmx (sample []) (sample_map [sample_sheet "4" "0"]) "." = .error e) :=
  have h := columns_zero_fails tmx (sample []) (sample_sheet "4" "0") "0" rfl rfl
  ⟨rfl, rfl, h.1, h.2.1 1 "", (h.2.2 rfl rfl).2 (sample_map [sample_sheet "4" "0"]) "."
    (List.Mem.head _)⟩

/-! ## C2: the tile grid of a sheet tile set -/

namespace impl

theorem Non_negative_int_ok {x y : Int} (h : Non_negative int_arithmetic x = .ok y) :
    y = x ∧ 0 ≤ x := by
  unfold Non_negative at h
  simp only [int_arithmetic, decide_eq_true_eq] at h
  split at h
  · exact ⟨by cases h; rfl, by assumption⟩
  · cases h

theorem Positive_int_ok {x y : Int} (h : Positive int_arithmetic x = .ok y) :
    y = x ∧ 0 < x := by
  unfold Positive at h
  simp only [int_arithmetic, decide_eq_true_eq] at h
  split at h
  · exact ⟨by cases h; rfl, by assumption⟩
  · cases h

theorem read_tile_count_nonneg (I : Tmx_info) (K : Collaborators) (el : Xml.Element)
    (n : Int) (h : tile_set.read_tile_count I K el = .ok n) : 0 ≤ n := by
  unfold tile_set.read_tile_count at h
  cases hx : (value el I.tile_set_tile_count >>= K.from_string_int) with
  | error e => rw [hx] at h; cases h
  | ok x =>
    rw [hx] at h
    have := Non_negative_int_ok h
    omega

theorem read_size_ok (I : Tmx_info) (K : Collaborators) (el : Xml.Element) (s : Size Int)
    (h : tile_set.tile_set.read_size I K el = .ok s) :
    ∃ tile_count columns, tile_set.read_tile_count I K el = .ok tile_count ∧
      tile_set.read_columns I K el = .ok columns ∧ 0 ≤ tile_count ∧ 0 < columns ∧
      s.w = columns ∧ s.h = Int.tdiv tile_count columns ∧ 0 < s.h := by
  unfold tile_set.tile_set.read_size at h
  cases htc : tile_set.read_tile_count I K el with
  | error e => rw [htc] at h; cases h
  | ok tc =>
    cases hc : tile_set.read_columns I K el with
    | error e => rw [htc, hc] at h; cases h
    | ok c =>
      rw [htc, hc] at h
      simp only [bind, Except.bind] at h
      split at h
      · cases h
      · rename_i hne
        cases hw : Positive int_arithmetic c with
        | error e => rw [hw] at h; cases h
        | ok w =>
          cases hh : Positive int_arithmetic (Int.tdiv tc c) with
          | error e => rw [hw, hh] at h; cases h
          | ok r =>
            rw [hw, hh] at h
            simp only [pure, Except.pure, Except.ok.injEq] at h
            obtain ⟨hw1, hw2⟩ := Positive_int_ok hw
            obtain ⟨hr1, hr2⟩ := Positive_int_ok hh
            refine ⟨tc, c, rfl, rfl, read_tile_count_nonneg I K el tc htc, hw2, ?_, ?_, ?_⟩
            · rw [← h]; exact hw1
            · rw [← h]; exact hr1
            · rw [← h, hr1]; exact hr2

end impl

/-- C2, counterexample: on the sheet tile set with `tilecount="7"` and
`columns="3"`, `read_size` accepts and returns the grid 3 by 2, whose product
is 6 and not the tile count 7. -/
theorem read_size_product_counterexample :
    impl.tile_set.read_tile_count tmx (sample []) (sample_sheet "7" "3") = .ok 7 ∧
    impl.tile_set.read_columns tmx (sample []) (sample_sheet "7" "3") = .ok 3 ∧
    impl.tile_set.tile_set.read_size tmx (sample []) (sample_sheet "7" "3") = .ok ⟨3, 2⟩ ∧
    ¬ ((3 : Int) * 2 = 7) :=
  ⟨rfl, rfl, rfl, by decide⟩

/-- C2, amended: when `read_size` accepts a sheet tile-set element, the
tile-count and columns attributes were read as `tile_count >= 0` and
`columns > 0`, the grid has `w = columns` and `h = tile_count / columns`
(truncated), so `columns * h <= tile_count < columns * (h + 1)`, and
`columns * h = tile_count` exactly when `columns` divides `tile_count`. -/
theorem read_size_grid (I : Tmx_info) (K : Collaborators) (el : Xml.Element) (s : Size Int)
    (h : impl.tile_set.tile_set.read_size I K el = .ok s) :
    ∃ tile_count columns, impl.tile_set.read_tile_count I K el = .ok tile_count ∧
      impl.tile_set.read_columns I K el = .ok columns ∧ 0 ≤ tile_count ∧ 0 < columns ∧
      s.w = columns ∧ s.h = Int.tdiv tile_count columns ∧
      columns * s.h ≤ tile_count ∧ tile_count < columns * (s.h + 1) ∧
      (columns * s.h = tile_count ↔ columns ∣ tile_count) := by
  obtain ⟨tc, c, htc, hc, h0, hpos, hw, hh, _⟩ := impl.read_size_ok I K el s h
  refine ⟨tc, c, htc, hc, h0, hpos, hw, hh, ?_⟩
  rw [hh, Int.tdiv_eq_ediv h0 hpos.le]
  have h1 := Int.emod_add_ediv tc c
  have h2 := Int.emod_nonneg tc hpos.ne'
  have h3 := Int.emod_lt_of_pos tc hpos
  refine ⟨by linarith, by linarith, ?_⟩
  rw [Int.dvd_iff_emod_eq_zero]
  constructor <;> intro h <;> linarith

/-- A witness of the amended C2: the sheet tile set with `tilecount="7"` and
`columns="3"`. -/
theorem read_size_grid_witness :
    impl.tile_set.tile_set.read_size tmx (sample []) (sample_sheet "7" "3") = .ok ⟨3, 2⟩ ∧
    ∃ tile_count columns,
      impl.tile_set.read_tile_count tmx (sample []) (sample_sheet "7" "3") = .ok tile_count ∧
      impl.tile_set.read_columns tmx (sample []) (sample_sheet "7" "3") = .ok columns ∧
      0 ≤ tile_count ∧ 0 < columns ∧
      (3 : Int) = columns ∧ (2 : Int) = Int.tdiv tile_count columns ∧
      columns * 2 ≤ tile_count ∧ tile_count < columns * (2 + 1) ∧
      (columns * 2 = tile_count ↔ columns ∣ tile_count) :=
  ⟨rfl, read_size_grid tmx (sample []) (sample_sheet "7" "3") ⟨3, 2⟩ rfl⟩

/-! ## C3: sheet tile set or image collection -/

namespace impl

theorem rethrow_eq_ok {α : Type} {x : Except Error α} {r : α} :
    rethrow_invalid_argument x = .ok r ↔ x = .ok r := by
  cases x with
  | ok a => simp [rethrow_invalid_argument]
  | error e => cases e <;> simp [rethrow_invalid_argument]

theorem map_eq_ok {α β : Type} {x : Except Error α} {f : α → β} {r : β}
    (h : x.map f = .ok r) : ∃ a, x = .ok a ∧ r = f a := by
  cases x with
  | ok a => exact ⟨a, rfl, by cases h; rfl⟩
  | error e => cases h

theorem is_tile_set_iff (I : Tmx_info) (el : Xml.Element) :
    tile_set.is_tile_set I el = true ↔ ∃ c ∈ el.nodes, c.name = I.image := by
  simp [tile_set.is_tile_set, Xml.Element.optional_child, List.find?_isSome]

end impl

/-- C3: `is_tile_set` is true exactly when the element has a direct image child.
For an embedded element (no or an empty source attribute) every result of
`read_map_tile_set` is the sheet `Tile_set` read from the element when
`is_tile_set` is true and the `Image_collection` read from it when it is
false; the same holds for every result of `read_tsx` and the root of the
document it loaded, which has the tile-set tag. -/
theorem tile_set_or_image_collection (I : Tmx_info) (K : Collaborators) (el : Xml.Element) :
    (impl.tile_set.is_tile_set I el = true ↔ ∃ c ∈ el.nodes, c.name = I.image) ∧
    (∀ tsx_base r, impl.tile_set.read_tsx I el = "" →
      impl.tile_set.read_map_tile_set I K el tsx_base = .ok r →
      (impl.tile_set.is_tile_set I el = true → ∃ g t,
        impl.tile_set.tile_set.read_tile_set I K el g "" = .ok t ∧ r = .tile_set t) ∧
      (impl.tile_set.is_tile_set I el = false → ∃ g c,
        impl.tile_set.image_collection.read_image_collection I K el g "" = .ok c ∧
          r = .image_collection c)) ∧
    (∀ first_id tsx base r, K.load (K.absolute tsx base) = .ok el →
      read_tsx I K first_id tsx base = .ok r →
      el.name = I.tile_set ∧
      (impl.tile_set.is_tile_set I el = true → ∃ t,
        impl.tile_set.tile_set.read_tile_set I K el first_id tsx = .ok t ∧ r = .tile_set t) ∧
      (impl.tile_set.is_tile_set I el = false → ∃ c,
        impl.tile_set.image_collection.read_image_collection I K el first_id tsx = .ok c ∧
          r = .image_collection c)) := by
  refine ⟨impl.is_tile_set_iff I el, ?_, ?_⟩
  · intro tsx_base r htsx h
    unfold impl.tile_set.read_map_tile_set at h
    cases hg : impl.tile_set.read_first_id I K el with
    | error e => rw [hg] at h; cases h
    | ok g =>
      rw [hg] at h
      simp only [bind, Except.bind, htsx, if_true] at h
      constructor
      · intro ht
        rw [ht] at h
        obtain ⟨t, h1, h2⟩ := impl.map_eq_ok h
        exact ⟨g, t, h1, h2⟩
      · intro ht
        rw [ht] at h
        obtain ⟨c, h1, h2⟩ := impl.map_eq_ok h
        exact ⟨g, c, h1, h2⟩
  · intro first_id tsx base r hload h
    unfold read_tsx at h
    rw [impl.rethrow_eq_ok, hload] at h
    simp only [bind, Except.bind] at h
    by_cases hname : el.name = I.tile_set
    · refine ⟨hname, ?_, ?_⟩
      · intro ht
        simp only [hname, ne_eq, not_true_eq_false, if_false, ht, if_true] at h
        obtain ⟨t, h1, h2⟩ := impl.map_eq_ok h
        exact ⟨t, h1, h2⟩
      · intro ht
        simp only [hname, ne_eq, not_true_eq_false, if_false, ht] at h
        obtain ⟨c, h1, h2⟩ := impl.map_eq_ok h
        exact ⟨c, h1, h2⟩
    · simp [hname] at h

/-- A witness of C3: the embedded sheet with a direct image child is read as a
`Tile_set`, the embedded element whose two tiles carry the only images as an
`Image_collection`, and the same two elements as roots of external documents
likewise. -/
theorem tile_set_or_image_collection_witness :
    impl.tile_set.is_tile_set tmx (sample_sheet "8" "4") = true ∧
    impl.tile_set.is_tile_set tmx sample_collection = false ∧
    (∃ t, impl.tile_set.read_map_tile_set tmx (sample []) (sample_sheet "8" "4") "." =
      .ok (.tile_set t)) ∧
    (∃ c, impl.tile_set.read_map_tile_set tmx (sample []) sample_collection "." =
      .ok (.image_collection c)) ∧
    (∃ t, read_tsx tmx (sample [("./a.tsx", sample_sheet "8" "4")]) 5 "a.tsx" "." =
      .ok (.tile_set t)) ∧
    (∃ c, read_tsx tmx (sample [("./b.tsx", sample_collection)]) 5 "b.tsx" "." =
      .ok (.image_collection c)) := by
  have h1 := (tile_set_or_image_collection tmx (sample []) (sample_sheet "8" "4")).2.1 "."
  have h2 := (tile_set_or_image_collection tmx (sample []) sample_collection).2.1 "."
  have h3 := (tile_set_or_image_collection tmx (sample [("./a.tsx", sample_sheet "8" "4")])
    (sample_sheet "8" "4")).2.2 5 "a.tsx" "."
  have h4 := (tile_set_or_image_collection tmx (sample [("./b.tsx", sample_collection)])
    sample_collection).2.2 5 "b.tsx" "."
  refine ⟨rfl, rfl, ?_, ?_, ?_, ?_⟩
  · obtain ⟨_, t, _, ht⟩ := (h1 _ rfl rfl).1 rfl
    exact ⟨t, ht ▸ rfl⟩
  · obtain ⟨_, c, _, hc⟩ := (h2 _ rfl rfl).2 rfl
    exact ⟨c, hc ▸ rfl⟩
  · obtain ⟨t, _, ht⟩ := (h3 _ rfl rfl).2.1 rfl
    exact ⟨t, ht ▸ rfl⟩
  · obtain ⟨c, _, hc⟩ := (h4 _ rfl rfl).2.2 rfl
    exact ⟨c, hc ▸ rfl⟩

/-! ## C4, C5, C6: the value of a property -/

/-- C4: a property element without a value attribute has the string value that
is its own text body, unchanged, whatever its alternative attribute is. -/
theorem read_value_text_body (I : Tmx_info) (K : Collaborators) (property : Xml.Element)
    (h : impl.optional_value property I.property_value = none) :
    impl.properties.read_value I K property = .ok (.string property.value) := by
  simp only [impl.properties.read_value, h]

/-- A witness of C4: a property declared `bool`, with no value attribute and
the text body `hello`. -/
theorem read_value_text_body_witness :
    impl.optional_value (sample_property [("name", "n"), ("type", "bool")] "hello")
      tmx.property_value = none ∧
    impl.properties.read_value tmx (sample [])
      (sample_property [("name", "n"), ("type", "bool")] "hello") = .ok (.string "hello") :=
  ⟨rfl, read_value_text_body tmx (sample [])
    (sample_property [("name", "n"), ("type", "bool")] "hello") rfl⟩

/-- C5: for a property element with a value attribute and the bool alternative
(a literal distinct from the string, int and double ones, which are tested
first), `read_value` returns `true` for the true literal, `false` for the
false literal (distinct from the true one), and for every other value text
throws an `Exception` carrying that text, which is no `Invalid_attribute`. -/
theorem read_value_bool (I : Tmx_info) (K : Collaborators) (property : Xml.Element)
    (v : String) (hv : impl.optional_value property I.property_value = some v)
    (ha : impl.optional_value property I.property_alternative = some I.property_alternative_bool)
    (h1 : I.property_alternative_bool ≠ I.property_alternative_string)
    (h2 : I.property_alternative_bool ≠ I.property_alternative_int)
    (h3 : I.property_alternative_bool ≠ I.property_alternative_double) :
    (v = I.property_value_true →
      impl.properties.read_value I K property = .ok (.bool true)) ∧
    (v = I.property_value_false → I.property_value_false ≠ I.property_value_true →
      impl.properties.read_value I K property = .ok (.bool false)) ∧
    (v ≠ I.property_value_true → v ≠ I.property_value_false →
      impl.properties.read_value I K property =
        .error (.Exception ("Bad property bool value: " ++ v)) ∧
      ∀ name value, impl.properties.read_value I K property ≠
        .error (.Invalid_attribute name value)) := by
  have h : impl.properties.read_value I K property =
      if v = I.property_value_true then .ok (.bool true)
      else if v = I.property_value_false then .ok (.bool false)
      else .error (.Exception ("Bad property bool value: " ++ v)) := by
    simp only [impl.properties.read_value, hv, ha, h1, h2, h3, if_false, if_true]
  refine ⟨fun ht => ?_, fun hf hne => ?_, fun ht hf => ?_⟩
  · rw [h, if_pos ht]
  · rw [h, if_neg (hf ▸ hne), if_pos hf]
  · rw [h, if_neg ht, if_neg hf]
    exact ⟨rfl, fun name value hc => by cases hc⟩

/-- A witness of C5: the `bool` properties with the values `true`, `false` and
`yes`. -/
theorem read_value_bool_witness :
    impl.properties.read_value tmx (sample [])
      (sample_property [("name", "n"), ("type", "bool"), ("value", "true")] "") =
      .ok (.bool true) ∧
    impl.properties.read_value tmx (sample [])
      (sample_property [("name", "n"), ("type", "bool"), ("value", "false")] "") =
      .ok (.bool false) ∧
    impl.properties.read_value tmx (sample [])
      (sample_property [("name", "n"), ("type", "bool"), ("value", "yes")] "") =
      .error (.Exception "Bad property bool value: yes") :=
  ⟨(read_value_bool tmx (sample [])
      (sample_property [("name", "n"), ("type", "bool"), ("value", "true")] "") "true"
      rfl rfl (by decide) (by decide) (by decide)).1 rfl,
   (read_value_bool tmx (sample [])
      (sample_property [("name", "n"), ("type", "bool"), ("value", "false")] "") "false"
      rfl rfl (by decide) (by decide) (by decide)).2.1 rfl (by decide),
   ((read_value_bool tmx (sample [])
      (sample_property [("name", "n"), ("type", "bool"), ("value", "yes")] "") "yes"
      rfl rfl (by decide) (by decide) (by decide)).2.2 (by decide) (by decide)).1⟩

/-- C6: for a property element with a value attribute, an alternative attribute
that is none of the string, int, double, bool, color and file literals makes
`read_value` throw `Invalid_attribute` with the alternative attribute's name
and its raw text; an absent alternative, or the string one, gives the value
attribute's text unchanged as a string. -/
theorem read_value_alternative (I : Tmx_info) (K : Collaborators) (property : Xml.Element)
    (v : String) (hv : impl.optional_value property I.property_value = some v) :
    (∀ a, impl.optional_value property I.property_alternative = some a →
      a ≠ I.property_alternative_string → a ≠ I.property_alternative_int →
      a ≠ I.property_alternative_double → a ≠ I.property_alternative_bool →
      a ≠ I.property_alternative_color → a ≠ I.property_alternative_file →
      impl.properties.read_value I K property =
        .error (.Invalid_attribute I.property_alternative (some a))) ∧
    (impl.optional_value property I.property_alternative = none →
      impl.properties.read_value I K property = .ok (.string v)) ∧
    (impl.optional_value property I.property_alternative = some I.property_alternative_string →
      impl.properties.read_value I K property = .ok (.string v)) := by
  refine ⟨fun a ha h1 h2 h3 h4 h5 h6 => ?_, fun ha => ?_, fun ha => ?_⟩
  · simp only [impl.properties.read_value, hv, ha, h1, h2, h3, h4, h5, h6, if_false]
  · simp only [impl.properties.read_value, hv, ha]
  · simp only [impl.properties.read_value, hv, ha, if_true]

/-- A witness of C6: the alternatives `vector` (unknown), absent and `string`. -/
theorem read_value_alternative_witness :
    impl.properties.read_value tmx (sample [])
      (sample_property [("name", "n"), ("type", "vector"), ("value", "1 2")] "") =
      .error (.Invalid_attribute "type" (some "vector")) ∧
    impl.properties.read_value tmx (sample [])
      (sample_property [("name", "n"), ("value", "1 2")] "") = .ok (.string "1 2") ∧
    impl.properties.read_value tmx (sample [])
      (sample_property [("name", "n"), ("type", "string"), ("value", "1 2")] "") =
      .ok (.string "1 2") :=
  ⟨(read_value_alternative tmx (sample [])
      (sample_property [("name", "n"), ("type", "vector"), ("value", "1 2")] "") "1 2" rfl).1
      "vector" rfl (by decide) (by decide) (by decide) (by decide) (by decide) (by decide),
   (read_value_alternative tmx (sample [])
      (sample_property [("name", "n"), ("value", "1 2")] "") "1 2" rfl).2.1 rfl,
   (read_value_alternative tmx (sample [])
      (sample_property [("name", "n"), ("type", "string"), ("value", "1 2")] "") "1 2" rfl).2.2
      rfl⟩

/-! ## C7: the root of an external tile-set document -/

/-- C7: when the root of the document loaded for an external tile-set reference
has a tag other than the tile-set tag, `read_tsx`, `read_tile_set` and
`read_image_collection` throw `Invalid_element` carrying the root's tag; they
return nothing. -/
theorem external_root_not_tile_set (I : Tmx_info) (K : Collaborators) (first_id : Nat)
    (tsx : File) (base : String) (root : Xml.Element)
    (hload : K.load (K.absolute tsx base) = .ok root) (hname : root.name ≠ I.tile_set) :
    read_tsx I K first_id tsx base = .error (.Invalid_element root.name none) ∧
    read_tile_set I K first_id tsx base = .error (.Invalid_element root.name none) ∧
    read_image_collection I K first_id tsx base = .error (.Invalid_element root.name none) := by
  refine ⟨?_, ?_, ?_⟩
  · simp [read_tsx, hload, hname, bind, Except.bind, impl.rethrow_invalid_argument]
  · simp [read_tile_set, hload, hname, bind, Except.bind, impl.rethrow_invalid_argument]
  · simp [read_image_collection, hload, hname, bind, Except.bind, impl.rethrow_invalid_argument]

/-- A witness of C7: the referenced document is a map. -/
theorem external_root_not_tile_set_witness :
    read_tsx tmx (sample [("./m.tmx", sample_map [])]) 1 "m.tmx" "." =
      .error (.Invalid_element "map" none) ∧
    read_tile_set tmx (sample [("./m.tmx", sample_map [])]) 1 "m.tmx" "." =
      .error (.Invalid_element "map" none) ∧
    read_image_collection tmx (sample [("./m.tmx", sample_map [])]) 1 "m.tmx" "." =
      .error (.Invalid_element "map" none) :=
  external_root_not_tile_set tmx (sample [("./m.tmx", sample_map [])]) 1 "m.tmx" "."
    (sample_map []) rfl (by decide)

/-! ## C8: a tile-set reference is read through its first id and source only -/

/-- C8: two tile-set reference elements with the same first-id attribute and
the same non-empty source attribute give the same result of
`read_map_tile_set` (same base path, same collaborators, hence same referenced
document), whatever their other attributes, text and children are: the result
is that of `read_tsx` on the parsed first id and the source. -/
theorem read_map_tile_set_reference (I : Tmx_info) (K : Collaborators)
    (el₁ el₂ : Xml.Element) (s : String) (tsx_base : String)
    (hid : impl.optional_value el₁ I.tile_set_first_id =
      impl.optional_value el₂ I.tile_set_first_id)
    (h₁ : impl.optional_value el₁ I.tile_set_tsx = some s)
    (h₂ : impl.optional_value el₂ I.tile_set_tsx = some s) (hs : s ≠ "") :
    impl.tile_set.read_map_tile_set I K el₁ tsx_base =
      impl.tile_set.read_map_tile_set I K el₂ tsx_base ∧
    impl.tile_set.read_map_tile_set I K el₁ tsx_base =
      (impl.tile_set.read_first_id I K el₁ >>= fun g => read_tsx I K g s tsx_base) := by
  have key : ∀ el : Xml.Element, impl.optional_value el I.tile_set_tsx = some s →
      impl.tile_set.read_map_tile_set I K el tsx_base =
        (impl.tile_set.read_first_id I K el >>= fun g => read_tsx I K g s tsx_base) := by
    intro el h
    simp only [impl.tile_set.read_map_tile_set, impl.tile_set.read_tsx, h, hs, if_false]
  refine ⟨?_, key el₁ h₁⟩
  rw [key el₁ h₁, key el₂ h₂]
  simp only [impl.tile_set.read_first_id, impl.value, hid]

/-- A witness of C8: two references to `a.tsx` with first id 5; the second has
attributes and children of its own, among them a `columns="0"` and an image,
and is read to the same tile set, the one of the referenced document. -/
theorem read_map_tile_set_reference_witness :
    impl.tile_set.read_map_tile_set tmx (sample [("./a.tsx", sample_sheet "8" "4")])
      (sample_reference "5" "a.tsx" [] []) "." =
    impl.tile_set.read_map_tile_set tmx (sample [("./a.tsx", sample_sheet "8" "4")])
      (sample_reference "5" "a.tsx" [("name", "other"), ("columns", "0")]
        [.mk "image" [] "" []]) "." ∧
    ∃ t, impl.tile_set.read_map_tile_set tmx (sample [("./a.tsx", sample_sheet "8" "4")])
      (sample_reference "5" "a.tsx" [] []) "." = .ok (.tile_set t) :=
  ⟨(read_map_tile_set_reference tmx (sample [("./a.tsx", sample_sheet "8" "4")])
      (sample_reference "5" "a.tsx" [] [])
      (sample_reference "5" "a.tsx" [("name", "other"), ("columns", "0")]
        [.mk "image" [] "" []]) "a.tsx" "." rfl rfl rfl (by decide)).1,
    ⟨_, rfl⟩⟩

/-! ## C9: the first id and the source of an external tile set -/

namespace impl

theorem read_tile_set_substitute (I : Tmx_info) (K : Collaborators) (el : Xml.Element)
    (g g' : Nat) (s s' : File) :
    tile_set.tile_set.read_tile_set I K el g' s' =
      (tile_set.tile_set.read_tile_set I K el g s).map
        (fun t => { t with first_id := g', tsx := s' }) := by
  simp only [tile_set.tile_set.read_tile_set, bind, Except.bind, Except.map, pure, Except.pure]
  repeat' split
  all_goals rfl

theorem read_image_collection_substitute (I : Tmx_info) (K : Collaborators) (el : Xml.Element)
    (g g' : Nat) (s s' : File) :
    tile_set.image_collection.read_image_collection I K el g' s' =
      (tile_set.image_collection.read_image_collection I K el g s).map
        (fun c => { c with first_id := g', tsx := s' }) := by
  simp only [tile_set.image_collection.read_image_collection, bind, Except.bind, Except.map,
    pure, Except.pure]
  repeat' split
  all_goals rfl

theorem read_tile_set_fields (I : Tmx_info) (K : Collaborators) (el : Xml.Element)
    (g : Nat) (s : File) (t : Tile_set K)
    (h : tile_set.tile_set.read_tile_set I K el g s = .ok t) :
    t.first_id = g ∧ t.tsx = s := by
  have h' := read_tile_set_substitute I K el g g s s
  rw [h] at h'
  simp only [Except.map, Except.ok.injEq] at h'
  exact ⟨congrArg Tile_set.first_id h', congrArg Tile_set.tsx h'⟩

theorem read_image_collection_fields (I : Tmx_info) (K : Collaborators) (el : Xml.Element)
    (g : Nat) (s : File) (c : Image_collection K)
    (h : tile_set.image_collection.read_image_collection I K el g s = .ok c) :
    c.first_id = g ∧ c.tsx = s := by
  have h' := read_image_collection_substitute I K el g g s s
  rw [h] at h'
  simp only [Except.map, Except.ok.injEq] at h'
  exact ⟨congrArg Image_collection.first_id h', congrArg Image_collection.tsx h'⟩

/-- The attribute names that `read_tile_set` and `read_image_collection` read
from the tile-set element itself are all distinct from a given name. -/
theorem root_attribute_agree (I : Tmx_info) (root root' : Xml.Element)
    (hattr : ∀ n, n ≠ I.tile_set_first_id → n ≠ I.tile_set_tsx →
      optional_value root' n = optional_value root n)
    (hd : ∀ n ∈ [I.tile_set_name, I.tile_size_width, I.tile_size_height, I.tile_set_spacing,
      I.tile_set_margin, I.tile_set_tile_count, I.tile_set_columns],
      n ≠ I.tile_set_first_id ∧ n ≠ I.tile_set_tsx) :
    ∀ n ∈ [I.tile_set_name, I.tile_size_width, I.tile_size_height, I.tile_set_spacing,
      I.tile_set_margin, I.tile_set_tile_count, I.tile_set_columns],
      optional_value root' n = optional_value root n :=
  fun n hn => hattr n (hd n hn).1 (hd n hn).2

end impl

/-- C9: a result of `read_tsx` for the first id `g` and the source `s` is the
`Tile_set` or `Image_collection` read from the root of the loaded document,
with first id `g` and source `s`; read under any other first id and source,
the same root gives the same record but for these two fields. The root's own
attributes under the first-id and source names are not read: a root with the
same children and the same attributes under every other name gives the same
results (the seven attribute names read from the root being distinct from the
first-id and source names). -/
theorem read_tsx_first_id_and_source (I : Tmx_info) (K : Collaborators) (g : Nat) (s : File)
    (base : String) :
    (∀ r, read_tsx I K g s base = .ok r →
      ∃ root, K.load (K.absolute s base) = .ok root ∧
        ((∃ t, r = .tile_set t ∧ t.first_id = g ∧ t.tsx = s ∧
            ∀ g' s', impl.tile_set.tile_set.read_tile_set I K root g' s' =
              .ok { t with first_id := g', tsx := s' }) ∨
          (∃ c, r = .image_collection c ∧ c.first_id = g ∧ c.tsx = s ∧
            ∀ g' s', impl.tile_set.image_collection.read_image_collection I K root g' s' =
              .ok { c with first_id := g', tsx := s' }))) ∧
    (∀ root root' : Xml.Element, root'.nodes = root.nodes →
      (∀ n, n ≠ I.tile_set_first_id → n ≠ I.tile_set_tsx →
        impl.optional_value root' n = impl.optional_value root n) →
      (∀ n ∈ [I.tile_set_name, I.tile_size_width, I.tile_size_height, I.tile_set_spacing,
        I.tile_set_margin, I.tile_set_tile_count, I.tile_set_columns],
        n ≠ I.tile_set_first_id ∧ n ≠ I.tile_set_tsx) →
      impl.tile_set.is_tile_set I root' = impl.tile_set.is_tile_set I root ∧
      impl.tile_set.tile_set.read_tile_set I K root' g s =
        impl.tile_set.tile_set.read_tile_set I K root g s ∧
      impl.tile_set.image_collection.read_image_collection I K root' g s =
        impl.tile_set.image_collection.read_image_collection I K root g s) := by
  constructor
  · intro r h
    unfold read_tsx at h
    rw [impl.rethrow_eq_ok] at h
    cases hload : K.load (K.absolute s base) with
    | error e => rw [hload] at h; cases h
    | ok root =>
      rw [hload] at h
      refine ⟨root, rfl, ?_⟩
      simp only [bind, Except.bind] at h
      split at h
      · cases h
      · split at h
        · obtain ⟨t, h1, h2⟩ := impl.map_eq_ok h
          obtain ⟨hg, hs⟩ := impl.read_tile_set_fields I K root g s t h1
          refine Or.inl ⟨t, h2, hg, hs, fun g' s' => ?_⟩
          rw [impl.read_tile_set_substitute I K root g g' s s', h1]
          rfl
        · obtain ⟨c, h1, h2⟩ := impl.map_eq_ok h
          obtain ⟨hg, hs⟩ := impl.read_image_collection_fields I K root g s c h1
          refine Or.inr ⟨c, h2, hg, hs, fun g' s' => ?_⟩
          rw [impl.read_image_collection_substitute I K root g g' s s', h1]
          rfl
  · intro root root' hnodes hattr hd
    have ha := impl.root_attribute_agree I root root' hattr hd
    have e1 := ha I.tile_set_name (by simp)
    have e2 := ha I.tile_size_width (by simp)
    have e3 := ha I.tile_size_height (by simp)
    have e4 := ha I.tile_set_spacing (by simp)
    have e5 := ha I.tile_set_margin (by simp)
    have e6 := ha I.tile_set_tile_count (by simp)
    have e7 := ha I.tile_set_columns (by simp)
    refine ⟨?_, ?_, ?_⟩
    · simp only [impl.tile_set.is_tile_set, Xml.Element.optional_child, hnodes]
    · simp only [impl.tile_set.tile_set.read_tile_set, impl.tile_set.read_name,
        impl.read_tile_size, impl.value, impl.tile_set.tile_set.read_spacing,
        impl.tile_set.tile_set.read_margin, impl.tile_set.tile_set.read_size,
        impl.tile_set.read_tile_count, impl.tile_set.read_columns,
        impl.tile_set.read_tile_offset, impl.properties.read_properties,
        impl.tile_set.tile_set.read_tiles, Xml.Element.child, Xml.Element.optional_child,
        Xml.Element.children, hnodes, e1, e2, e3, e4, e5, e6, e7]
    · simp only [impl.tile_set.image_collection.read_image_collection, impl.tile_set.read_name,
        impl.read_tile_size, impl.value, impl.tile_set.read_tile_count,
        impl.tile_set.read_columns, impl.tile_set.read_tile_offset,
        impl.properties.read_properties, impl.tile_set.image_collection.read_tiles,
        Xml.Element.child, Xml.Element.optional_child, Xml.Element.children, hnodes,
        e1, e2, e3, e6, e7]

/-- A witness of C9: the referenced root carries `firstgid="77"` and
`source="elsewhere.tsx"`; read for the first id 5 and the source `a.tsx` it
gives a tile set with first id 5 and source `a.tsx`, the one the root without
these two attributes gives. -/
theorem read_tsx_first_id_and_source_witness :
    (∃ t, read_tsx tmx (sample [("./a.tsx", sample_root_with_source)]) 5 "a.tsx" "." =
      .ok (.tile_set t) ∧ t.first_id = 5 ∧ t.tsx = "a.tsx") ∧
    impl.tile_set.tile_set.read_tile_set tmx (sample []) sample_root_with_source 5 "a.tsx" =
      impl.tile_set.tile_set.read_tile_set tmx (sample []) (sample_sheet "8" "4") 5 "a.tsx" := by
  have h := read_tsx_first_id_and_source tmx (sample [("./a.tsx", sample_root_with_source)])
    5 "a.tsx" "."
  have h' := read_tsx_first_id_and_source tmx (sample []) 5 "a.tsx" "."
  constructor
  · obtain ⟨root, _, ht | hc⟩ := h.1 _ rfl
    · obtain ⟨t, ht, hg, hs, _⟩ := ht
      exact ⟨t, ht ▸ rfl, hg, hs⟩
    · obtain ⟨c, hc, _⟩ := hc
      cases hc
  · refine (h'.2 (sample_sheet "8" "4") sample_root_with_source rfl ?_ (by decide)).2.1
    intro n h1 h2
    have h1' : (n == "firstgid") = false := beq_false_of_ne h1
    have h2' : (n == "source") = false := beq_false_of_ne h2
    simp only [impl.optional_value, sample_root_with_source, sample_sheet,
      Xml.Element.attributes, List.lookup, h1', h2']

/-! ## C10: the children of a map and the three layer kinds -/

namespace impl

theorem optional_value_mk (n : String) (a : List (String × String)) (v : String)
    (c : List Xml.Element) (x : String) : optional_value (.mk n a v c) x = a.lookup x := rfl

theorem nodes_mk (n : String) (a : List (String × String)) (v : String)
    (c : List Xml.Element) : (Xml.Element.mk n a v c).nodes = c := rfl

theorem find_skip {α : Type} (p : α → Bool) (pre post : List α) (c : α) (hc : p c = false) :
    (pre ++ c :: post).find? p = (pre ++ post).find? p := by
  simp [List.find?_append, List.find?_cons, hc]

theorem filter_skip {α : Type} (p : α → Bool) (pre post : List α) (c : α) (hc : p c = false) :
    (pre ++ c :: post).filter p = (pre ++ post).filter p := by
  simp [List.filter_append, List.filter_cons, hc]

theorem children_skip (names : List String) (n : String) (a : List (String × String))
    (v : String) (pre post : List Xml.Element) (c : Xml.Element) (hc : c.name ∉ names) :
    children (.mk n a v (pre ++ c :: post)) names = children (.mk n a v (pre ++ post)) names := by
  simp only [children, nodes_mk]
  exact filter_skip _ pre post c (by simp [hc])

theorem element_children_skip (name : String) (n : String) (a : List (String × String))
    (v : String) (pre post : List Xml.Element) (c : Xml.Element) (hc : c.name ≠ name) :
    (Xml.Element.mk n a v (pre ++ c :: post)).children name =
      (Xml.Element.mk n a v (pre ++ post)).children name := by
  simp only [Xml.Element.children, nodes_mk]
  exact filter_skip _ pre post c (by simp [hc])

theorem optional_child_skip (name : String) (n : String) (a : List (String × String))
    (v : String) (pre post : List Xml.Element) (c : Xml.Element) (hc : c.name ≠ name) :
    (Xml.Element.mk n a v (pre ++ c :: post)).optional_child name =
      (Xml.Element.mk n a v (pre ++ post)).optional_child name := by
  simp only [Xml.Element.optional_child, nodes_mk]
  exact find_skip _ pre post c (by simp [hc])

end impl

/-- C10, counterexample: the map element whose only child has the tag `foo`,
which is no layer tag and neither the properties nor the tile-set tag, is read
without any error, to a map without layers. -/
theorem read_map_unknown_child_counterexample :
    "foo" ∉ [tmx.tile_layer, tmx.object_layer, tmx.image_layer, tmx.properties, tmx.tile_set] ∧
    impl.map.read_map tmx (sample []) (sample_map [.mk "foo" [] "" []]) "." =
      .ok ⟨"1.0", .Orthogonal, .right_down, ⟨2, 2⟩, ⟨(16 : Int), (16 : Int)⟩, none, 1, [], [],
        []⟩ :=
  ⟨by decide, rfl⟩

/-- C10, amended: `map::read_layer` throws `Invalid_element` carrying the tag on
an element whose tag is none of the three layer tags, and on an element with
the tile-layer, object-layer or image-layer tag (tested in this order) it
builds the layer kind named by the tag. `read_layers` passes only the children
with one of the three layer tags to `read_layer`: a child with another tag is
skipped, and when its tag is neither the properties nor the tile-set tag,
`read_map` gives the same result as without that child. -/
theorem read_layer_by_tag (I : Tmx_info) (K : Collaborators) :
    (∀ el : Xml.Element, el.name ≠ I.tile_layer → el.name ≠ I.object_layer →
      el.name ≠ I.image_layer →
      impl.map.read_layer I K el = .error (.Invalid_element el.name none)) ∧
    (∀ el : Xml.Element, el.name = I.tile_layer →
      impl.map.read_layer I K el =
        (impl.tile_layer.read_tile_layer I K el).map .tile_layer) ∧
    (∀ el : Xml.Element, el.name = I.object_layer → I.object_layer ≠ I.tile_layer →
      impl.map.read_layer I K el =
        (impl.object_layer.read_object_layer I K el).map .object_layer) ∧
    (∀ el : Xml.Element, el.name = I.image_layer → I.image_layer ≠ I.tile_layer →
      I.image_layer ≠ I.object_layer →
      impl.map.read_layer I K el =
        (impl.image_layer.read_image_layer I K el).map .image_layer) ∧
    (∀ (n : String) (a : List (String × String)) (v : String) (pre post : List Xml.Element)
      (c : Xml.Element), c.name ∉ [I.tile_layer, I.object_layer, I.image_layer] →
      impl.map.read_layers I K (.mk n a v (pre ++ c :: post)) =
        impl.map.read_layers I K (.mk n a v (pre ++ post)) ∧
      (c.name ≠ I.properties → c.name ≠ I.tile_set → ∀ tsx_base,
        impl.map.read_map I K (.mk n a v (pre ++ c :: post)) tsx_base =
          impl.map.read_map I K (.mk n a v (pre ++ post)) tsx_base)) := by
  refine ⟨fun el h1 h2 h3 => ?_, fun el h => ?_, fun el h h1 => ?_, fun el h h1 h2 => ?_,
    fun n a v pre post c hc => ?_⟩
  · simp only [impl.map.read_layer, h1, h2, h3, if_false]
  · simp only [impl.map.read_layer, h, if_true]
  · simp only [impl.map.read_layer, h, h1, if_false, if_true]
  · simp only [impl.map.read_layer, h, h1, h2, if_false, if_true]
  · have hl : impl.map.read_layers I K (.mk n a v (pre ++ c :: post)) =
        impl.map.read_layers I K (.mk n a v (pre ++ post)) := by
      simp only [impl.map.read_layers, impl.children_skip _ n a v pre post c hc]
    refine ⟨hl, fun hp ht tsx_base => ?_⟩
    simp only [impl.map.read_map, hl, impl.map.read_tile_sets,
      impl.element_children_skip _ n a v pre post c ht, impl.properties.read_properties,
      impl.optional_child_skip _ n a v pre post c hp, impl.map.read_version,
      impl.map.read_orientation, impl.map.read_axis, impl.map.read_index,
      impl.map.read_side_length, impl.map.read_render_order, impl.read_isize,
      impl.read_tile_size, impl.map.read_background, impl.map.read_next_id, impl.value,
      impl.optional_value_mk]

/-- A witness of the amended C10: an element tagged `foo` is refused by
`read_layer`, an element tagged `imagelayer` is built as an image layer, and
the map with a `foo` child before its image layer is read as the map without
that child. -/
theorem read_layer_by_tag_witness :
    impl.map.read_layer tmx (sample []) (.mk "foo" [] "" []) =
      .error (.Invalid_element "foo" none) ∧
    impl.map.read_layer tmx (sample []) (.mk "imagelayer" [("name", "sky")] "" []) =
      .ok (.image_layer ⟨⟨"sky", (1 : Int), true, ⟨(0 : Int), (0 : Int)⟩, []⟩, none⟩) ∧
    impl.map.read_map tmx (sample [])
      (.mk "map" [("version", "1.0"), ("orientation", "orthogonal"), ("width", "2"),
        ("height", "2"), ("tilewidth", "16"), ("tileheight", "16"), ("nextobjectid", "1")] ""
        ([] ++ .mk "foo" [] "" [] :: [.mk "imagelayer" [("name", "sky")] "" []])) "." =
      impl.map.read_map tmx (sample [])
      (.mk "map" [("version", "1.0"), ("orientation", "orthogonal"), ("width", "2"),
        ("height", "2"), ("tilewidth", "16"), ("tileheight", "16"), ("nextobjectid", "1")] ""
        ([] ++ [.mk "imagelayer" [("name", "sky")] "" []])) "." :=
  have h := read_layer_by_tag tmx (sample [])
  ⟨h.1 (.mk "foo" [] "" []) (by decide) (by decide) (by decide),
   (h.2.2.2.1 (.mk "imagelayer" [("name", "sky")] "" []) rfl (by decide) (by decide)).trans rfl,
   (h.2.2.2.2 "map" _ "" [] [.mk "imagelayer" [("name", "sky")] "" []] (.mk "foo" [] "" [])
     (by decide)).2 (by decide) (by decide) "."⟩

/-! ## C11: the shape of an object -/

/-- C11: `object::read_shape` looks at the polyline child first: when there is
one, the result is the `Polyline` of its points, whatever else the object
has. Otherwise, when there is a polygon child, it is the `Polygon` of its
points. Otherwise, with both a width and a height attribute, it is the
`Ellipse` of the size read from them when there is an ellipse child and the
`Rectangle` of that size when there is none; with neither attribute there is
no shape, also when there is an ellipse child. -/
theorem read_shape_priority (I : Tmx_info) (K : Collaborators) (object : Xml.Element) :
    (∀ polyline, object.optional_child I.object_polyline = some polyline →
      impl.object.read_shape I K object =
        (impl.object.read_points I K polyline).map (fun p => some (.Polyline p))) ∧
    (object.optional_child I.object_polyline = none →
      (∀ polygon, object.optional_child I.object_polygon = some polygon →
        impl.object.read_shape I K object =
          (impl.object.read_points I K polygon).map (fun p => some (.Polygon p))) ∧
      (object.optional_child I.object_polygon = none →
        (∀ w h, impl.optional_value object I.size_width = some w →
          impl.optional_value object I.size_height = some h →
          impl.object.read_shape I K object = (do
            let pw ← impl.from_string_positive K.pixel K.from_string_pixel w
            let ph ← impl.from_string_positive K.pixel K.from_string_pixel h
            pure (some (if (object.optional_child I.object_ellipse).isSome
              then .Ellipse ⟨pw, ph⟩ else .Rectangle ⟨pw, ph⟩)))) ∧
        (impl.optional_value object I.size_width = none →
          impl.optional_value object I.size_height = none →
          impl.object.read_shape I K object = .ok none))) := by
  refine ⟨fun polyline h => ?_, fun h1 => ⟨fun polygon h => ?_, fun h2 =>
    ⟨fun w h hw hh => ?_, fun hw hh => ?_⟩⟩⟩
  · simp only [impl.object.read_shape, h]
  · simp only [impl.object.read_shape, h1, h]
  · simp only [impl.object.read_shape, h1, h2, impl.read_optional_size, hw, hh,
      Option.isSome_some, bne_self_eq_false, Bool.false_eq_true, if_false, bind, Except.bind,
      pure, Except.pure]
    cases impl.from_string_positive K.pixel K.from_string_pixel w with
    | error e => rfl
    | ok pw =>
      cases impl.from_string_positive K.pixel K.from_string_pixel h with
      | error e => rfl
      | ok ph =>
        simp only []
        split <;> rfl
  · simp only [impl.object.read_shape, h1, h2, impl.read_optional_size, hw, hh,
      Option.isSome_none, bne_self_eq_false, Bool.false_eq_true, if_false, bind, Except.bind,
      pure, Except.pure]

/-- A witness of C11: an object with a polyline, a polygon, an ellipse and a
size is a polyline; without the polyline it is a polygon; with the ellipse and
the size only it is an ellipse; with the size only a rectangle; with the
ellipse child and no size it has no shape. -/
theorem read_shape_priority_witness :
    impl.object.read_shape tmx (sample [])
      (sample_object [("width", "4"), ("height", "2")]
        [.mk "ellipse" [] "" [], sample_poly "polygon" "0,0 1,1 2,0",
          sample_poly "polyline" "0,0 3,4"]) =
      .ok (some (.Polyline [⟨(0 : Int), (0 : Int)⟩, ⟨(3 : Int), (4 : Int)⟩])) ∧
    impl.object.read_shape tmx (sample [])
      (sample_object [("width", "4"), ("height", "2")]
        [.mk "ellipse" [] "" [], sample_poly "polygon" "0,0 1,1"]) =
      .ok (some (.Polygon [⟨(0 : Int), (0 : Int)⟩, ⟨(1 : Int), (1 : Int)⟩])) ∧
    impl.object.read_shape tmx (sample [])
      (sample_object [("width", "4"), ("height", "2")] [.mk "ellipse" [] "" []]) =
      .ok (some (.Ellipse ⟨(4 : Int), (2 : Int)⟩)) ∧
    impl.object.read_shape tmx (sample [])
      (sample_object [("width", "4"), ("height", "2")] []) =
      .ok (some (.Rectangle ⟨(4 : Int), (2 : Int)⟩)) ∧
    impl.object.read_shape tmx (sample []) (sample_object [] [.mk "ellipse" [] "" []]) =
      .ok none :=
  ⟨((read_shape_priority tmx (sample [])
      (sample_object [("width", "4"), ("height", "2")]
        [.mk "ellipse" [] "" [], sample_poly "polygon" "0,0 1,1 2,0",
          sample_poly "polyline" "0,0 3,4"])).1 (sample_poly "polyline" "0,0 3,4") rfl).trans rfl,
   (((read_shape_priority tmx (sample [])
      (sample_object [("width", "4"), ("height", "2")]
        [.mk "ellipse" [] "" [], sample_poly "polygon" "0,0 1,1"])).2 rfl).1
      (sample_poly "polygon" "0,0 1,1") rfl).trans rfl,
   ((((read_shape_priority tmx (sample [])
      (sample_object [("width", "4"), ("height", "2")] [.mk "ellipse" [] "" []])).2 rfl).2
      rfl).1 "4" "2" rfl rfl).trans rfl,
   ((((read_shape_priority tmx (sample [])
      (sample_object [("width", "4"), ("height", "2")] [])).2 rfl).2 rfl).1 "4" "2" rfl
      rfl).trans rfl,
   (((read_shape_priority tmx (sample [])
      (sample_object [] [.mk "ellipse" [] "" []])).2 rfl).2 rfl).2 rfl rfl⟩

/-! ## C12: the root of a map document -/

/-- C12: when the root of the loaded document has a tag other than the map tag
(the tile-set tag, for one), `read_tmx` throws `Invalid_element` carrying the
root's tag; when it has the map tag, `read_tmx` returns what `read_map`
returns on that root and the parent path, and throws what it throws, an
`Invalid_argument` as an `Exception`. -/
theorem read_tmx_root (I : Tmx_info) (K : Collaborators) (path : String) (root : Xml.Element)
    (hload : K.load path = .ok root) :
    (root.name ≠ I.map → read_tmx I K path = .error (.Invalid_element root.name none)) ∧
    (root.name = I.map →
      read_tmx I K path =
        impl.rethrow_invalid_argument (impl.map.read_map I K root (K.parent_path path)) ∧
      ∀ m, read_tmx I K path = .ok m ↔
        impl.map.read_map I K root (K.parent_path path) = .ok m) := by
  refine ⟨fun h => ?_, fun h => ?_⟩
  · simp [read_tmx, hload, h, bind, Except.bind, impl.rethrow_invalid_argument]
  · have e : read_tmx I K path =
        impl.rethrow_invalid_argument (impl.map.read_map I K root (K.parent_path path)) := by
      simp only [read_tmx, hload, h, bind, Except.bind, if_true]
    exact ⟨e, fun m => by rw [e, impl.rethrow_eq_ok]⟩

/-- A witness of C12: a document whose root is a tile set is refused with its
tag, and a document whose root is a map is read as `read_map` reads the
root. -/
theorem read_tmx_root_witness :
    read_tmx tmx (sample [("a.tsx", sample_sheet "8" "4")]) "a.tsx" =
      .error (.Invalid_element "tileset" none) ∧
    read_tmx tmx (sample [("m.tmx", sample_map [])]) "m.tmx" =
      .ok ⟨"1.0", .Orthogonal, .right_down, ⟨2, 2⟩, ⟨(16 : Int), (16 : Int)⟩, none, 1, [], [],
        []⟩ :=
  ⟨(read_tmx_root tmx (sample [("a.tsx", sample_sheet "8" "4")]) "a.tsx" (sample_sheet "8" "4")
      rfl).1 (by decide),
   (((read_tmx_root tmx (sample [("m.tmx", sample_map [])]) "m.tmx" (sample_map []) rfl).2
      rfl).2 _).2 rfl⟩

/-! ## C13, C14: the identifiers of a layer's data -/

namespace impl

theorem transform_eq_ok_iff {α β : Type} (f : α → Except Error β) (l : List α) (r : List β) :
    transform f l = .ok r ↔ List.Forall₂ (fun a b => f a = .ok b) l r := by
  induction l generalizing r with
  | nil =>
    simp only [transform, Except.ok.injEq, List.forall₂_nil_left_iff]
    exact eq_comm
  | cons a l ih =>
    simp only [transform, bind, Except.bind, pure, Except.pure]
    cases ha : f a with
    | error e =>
      simp only []
      constructor
      · intro h; cases h
      · intro h
        cases h with
        | cons h1 _ => rw [ha] at h1; cases h1
    | ok b =>
      simp only []
      cases hl : transform f l with
      | error e =>
        simp only []
        constructor
        · intro h; cases h
        · intro h
          cases h with
          | cons _ h2 => rw [← ih, hl] at h2; cases h2
      | ok bs =>
        simp only [Except.ok.injEq]
        constructor
        · rintro rfl
          exact List.Forall₂.cons ha ((ih bs).mp hl)
        · intro h
          cases h with
          | cons h1 h2 =>
            rw [ha] at h1
            rw [← ih, hl] at h2
            cases h1; cases h2; rfl

end impl

/-- C13, counterexample: the data elements declaring `base64`, with no
compression and the payload `AQAAAA==` (the four bytes 01 00 00 00, the
identifier 1), and with `zlib` and the payload `eJxjZGBgAAAACAAC` (the same
bytes, deflated), are refused by `read_data`. -/
theorem read_data_base64_counterexample :
    impl.data.read_data tmx (sample []) (sample_data [("encoding", "base64")] "AQAAAA==") =
      .error (.Exception "Can only handle csv-encoded data.") ∧
    impl.data.read_data tmx (sample [])
      (sample_data [("encoding", "base64"), ("compression", "zlib")] "eJxjZGBgAAAACAAC") =
      .error (.Exception "Can only handle csv-encoded data.") :=
  ⟨rfl, rfl⟩

/-- C13, amended: for a data element declaring the base64 encoding, with no
compression attribute or the zlib one, `read_data` throws the `Exception`
`Can only handle csv-encoded data.`, whatever the payload is (a base64 format
comparing unequal to the csv encoding, and the base64 literal being distinct
from the csv one). -/
theorem read_data_base64 (I : Tmx_info) (K : Collaborators) (el : Xml.Element)
    (he : impl.optional_value el I.data_encoding = some I.data_encoding_base64)
    (hne : I.data_encoding_base64 ≠ I.data_encoding_csv)
    (hc : impl.optional_value el I.data_compression = none ∨
      impl.optional_value el I.data_compression = some I.data_compression_zlib)
    (hf : ∀ c, K.format_ne ⟨.base64, c⟩ .csv = true) :
    impl.data.read_data I K el = .error (.Exception "Can only handle csv-encoded data.") := by
  rcases hc with hc | hc <;>
    simp [impl.data.read_data, impl.data.read_format, impl.data.read_encoding,
      impl.data.read_compression, impl.data.read_ids, impl.value, he, hne, hc, hf, bind,
      Except.bind, pure, Except.pure]

/-- A witness of the amended C13: the two base64 data elements, without
compression and with zlib. -/
theorem read_data_base64_witness :
    impl.data.read_data tmx (sample []) (sample_data [("encoding", "base64")] "AQAAAA==") =
      .error (.Exception "Can only handle csv-encoded data.") ∧
    impl.data.read_data tmx (sample [])
      (sample_data [("encoding", "base64"), ("compression", "zlib")] "eJxjZGBgAAAACAAC") =
      .error (.Exception "Can only handle csv-encoded data.") :=
  ⟨read_data_base64 tmx (sample []) (sample_data [("encoding", "base64")] "AQAAAA==") rfl
      (by decide) (Or.inl rfl) (fun c => by cases c <;> rfl),
   read_data_base64 tmx (sample [])
      (sample_data [("encoding", "base64"), ("compression", "zlib")] "eJxjZGBgAAAACAAC") rfl
      (by decide) (Or.inr rfl) (fun c => by cases c <;> rfl)⟩

/-- C14: for a format that compares equal to the csv encoding, `data::read_ids`
is `to_data_flipped_id` transformed over the tokens of the payload split on
the comma and the newline: it returns `ids` exactly when the tokens and `ids`
correspond one to one, in text order, each id the conversion of its token.
With the tokens and the conversion of the spec, the payload
`1,2,3` newline `4,5,6` gives the six identifiers 1 to 6 and the payload
`1,,3`, which has an empty token, is a text-conversion failure. -/
theorem read_ids_csv (K : Collaborators) (format : Data.Format)
    (hf : K.format_ne format .csv = false) :
    (∀ data, impl.data.read_ids K format data =
      impl.transform K.to_data_flipped_id (K.tokenize data ",\n")) ∧
    (∀ data ids, impl.data.read_ids K format data = .ok ids ↔
      List.Forall₂ (fun token id => K.to_data_flipped_id token = .ok id)
        (K.tokenize data ",\n") ids) ∧
    (K.tokenize = impl.tokenize → K.to_data_flipped_id = impl.to_data_flipped_id →
      impl.data.read_ids K format "1,2,3\n4,5,6" = .ok [1, 2, 3, 4, 5, 6] ∧
      impl.data.read_ids K format "1,,3" = .error (.Exception "Could not convert: ")) := by
  have e : ∀ data, impl.data.read_ids K format data =
      impl.transform K.to_data_flipped_id (K.tokenize data ",\n") := by
    intro data
    simp only [impl.data.read_ids, hf, Bool.false_eq_true, if_false]
  refine ⟨e, fun data ids => ?_, fun ht hi => ?_⟩
  · rw [e, impl.transform_eq_ok_iff]
  · rw [e, e, ht, hi]
    exact ⟨rfl, rfl⟩

/-- A witness of C14: the csv format without compression, on the two payloads
and on a payload with spaces around a token. -/
theorem read_ids_csv_witness :
    sample_csv.format_ne ⟨.csv, .none⟩ .csv = false ∧
    impl.data.read_ids sample_csv ⟨.csv, .none⟩ "1,2,3\n4,5,6" = .ok [1, 2, 3, 4, 5, 6] ∧
    impl.data.read_ids sample_csv ⟨.csv, .none⟩ "1,,3" =
      .error (.Exception "Could not convert: ") ∧
    impl.data.read_ids sample_csv ⟨.csv, .none⟩ "7, 2147483649" = .ok [7, 2147483649] :=
  ⟨rfl, ((read_ids_csv sample_csv ⟨.csv, .none⟩ rfl).2.2 rfl rfl).1,
   ((read_ids_csv sample_csv ⟨.csv, .none⟩ rfl).2.2 rfl rfl).2,
   ((read_ids_csv sample_csv ⟨.csv, .none⟩ rfl).1 "7, 2147483649").trans rfl⟩

/-! ## C15: the attributes an image collection requires -/

/-- C15, counterexample: the image collection with the attributes name, tile
width, tile height, tile count and columns is read; without its columns
attribute, and without its tile-count attribute, it is refused for the missing
attribute. -/
theorem read_image_collection_counterexample :
    impl.tile_set.is_tile_set tmx (sample_collection_of [("tilewidth", "16"),
      ("tileheight", "16"), ("tilecount", "2")]) = false ∧
    (impl.tile_set.image_collection.read_image_collection tmx (sample [])
      (sample_collection_of [("tilewidth", "16"), ("tileheight", "16"), ("tilecount", "2"),
        ("columns", "0")]) 9 "").isOk = true ∧
    (impl.tile_set.image_collection.read_image_collection tmx (sample [])
      (sample_collection_of [("tilewidth", "16"), ("tileheight", "16"), ("tilecount", "2")])
      9 "") = .error (.Invalid_attribute "columns" none) ∧
    (impl.tile_set.image_collection.read_image_collection tmx (sample [])
      (sample_collection_of [("tilewidth", "16"), ("tileheight", "16"), ("columns", "0")])
      9 "") = .error (.Invalid_attribute "tilecount" none) :=
  ⟨rfl, rfl, rfl, rfl⟩

/-- C15, amended: `read_image_collection` throws on every element that lacks
the tile-count attribute or the columns attribute, for every first id and
source: both are required of an image collection too. When the element is
valid up to there, the exception is the `Invalid_attribute` naming the missing
attribute. -/
theorem read_image_collection_requires (I : Tmx_info) (K : Collaborators) (el : Xml.Element)
    (first_id : Nat) (tsx : File) :
    (impl.optional_value el I.tile_set_tile_count = none ∨
        impl.optional_value el I.tile_set_columns = none →
      ∃ e, impl.tile_set.image_collection.read_image_collection I K el first_id tsx =
        .error e) ∧
    (∀ size, impl.read_tile_size I K el = .ok size →
      (impl.optional_value el I.tile_set_tile_count = none →
        impl.tile_set.image_collection.read_image_collection I K el first_id tsx =
          .error (.Invalid_attribute I.tile_set_tile_count none)) ∧
      (∀ n, impl.tile_set.read_tile_count I K el = .ok n →
        impl.optional_value el I.tile_set_columns = none →
        impl.tile_set.image_collection.read_image_collection I K el first_id tsx =
          .error (.Invalid_attribute I.tile_set_columns none))) := by
  have hcount : impl.optional_value el I.tile_set_tile_count = none →
      impl.tile_set.read_tile_count I K el =
        .error (.Invalid_attribute I.tile_set_tile_count none) := by
    intro h
    simp only [impl.tile_set.read_tile_count, impl.value, h]
    rfl
  have hcolumns : impl.optional_value el I.tile_set_columns = none →
      impl.tile_set.read_columns I K el =
        .error (.Invalid_attribute I.tile_set_columns none) := by
    intro h
    simp only [impl.tile_set.read_columns, impl.value, h]
    rfl
  refine ⟨fun h => ?_, fun size hsize => ⟨fun h => ?_, fun n hn h => ?_⟩⟩
  · unfold impl.tile_set.image_collection.read_image_collection
    refine impl.bind_fails_right _ (fun _ => ?_)
    rcases h with h | h
    · exact impl.bind_fails_left _ ⟨_, hcount h⟩
    · exact impl.bind_fails_right _ (fun _ => impl.bind_fails_left _ ⟨_, hcolumns h⟩)
  · simp only [impl.tile_set.image_collection.read_image_collection, hsize, hcount h, bind,
      Except.bind]
  · simp only [impl.tile_set.image_collection.read_image_collection, hsize, hn, hcolumns h,
      bind, Except.bind]

/-- A witness of the amended C15: the image collection without its columns
attribute and the one without its tile-count attribute. -/
theorem read_image_collection_requires_witness :
    (∃ e, impl.tile_set.image_collection.read_image_collection tmx (sample [])
      (sample_collection_of [("tilewidth", "16"), ("tileheight", "16"), ("tilecount", "2")])
      9 "" = .error e) ∧
    impl.tile_set.image_collection.read_image_collection tmx (sample [])
      (sample_collection_of [("tilewidth", "16"), ("tileheight", "16"), ("columns", "0")])
      9 "" = .error (.Invalid_attribute "tilecount" none) :=
  ⟨(read_image_collection_requires tmx (sample [])
      (sample_collection_of [("tilewidth", "16"), ("tileheight", "16"), ("tilecount", "2")])
      9 "").1 (Or.inr rfl),
   ((read_image_collection_requires tmx (sample [])
      (sample_collection_of [("tilewidth", "16"), ("tileheight", "16"), ("columns", "0")])
      9 "").2 ⟨(16 : Int), (16 : Int)⟩ rfl).1 rfl⟩

/-! ## C16: the orientation of a map -/

/-- C16: with the orientation attribute `o` and the four orientation literals
pairwise distinct, `map::read_orientation` returns `Orthogonal` for the
orthogonal literal and `Isometric` for the isometric one without reading
anything else, `Staggered` of the axis and the index it reads for the
staggered literal, `Hexagonal` of the axis, the index and the side length it
reads for the hexagonal literal, and for every other text throws
`Invalid_attribute` with the orientation attribute's name and the text.
Each variant is returned for its own literal only. -/
theorem read_orientation_literals (I : Tmx_info) (K : Collaborators) (el : Xml.Element)
    (o : String) (ho : impl.optional_value el I.map_orientation = some o)
    (hd : [I.map_orthogonal, I.map_isometric, I.map_staggered, I.map_hexagonal].Nodup) :
    (o = I.map_orthogonal → impl.map.read_orientation I K el = .ok .Orthogonal) ∧
    (o = I.map_isometric → impl.map.read_orientation I K el = .ok .Isometric) ∧
    (o = I.map_staggered → impl.map.read_orientation I K el = (do
      let axis ← impl.map.read_axis I el
      let index ← impl.map.read_index I el
      pure (.Staggered axis index))) ∧
    (o = I.map_hexagonal → impl.map.read_orientation I K el = (do
      let axis ← impl.map.read_axis I el
      let index ← impl.map.read_index I el
      let side_length ← impl.map.read_side_length I K el
      pure (.Hexagonal axis index side_length))) ∧
    (o ∉ [I.map_orthogonal, I.map_isometric, I.map_staggered, I.map_hexagonal] →
      impl.map.read_orientation I K el =
        .error (.Invalid_attribute I.map_orientation (some o))) ∧
    (∀ r, impl.map.read_orientation I K el = .ok r →
      (r = .Orthogonal ↔ o = I.map_orthogonal) ∧
      (r = .Isometric ↔ o = I.map_isometric) ∧
      ((∃ axis index, r = .Staggered axis index) ↔ o = I.map_staggered) ∧
      ((∃ axis index side_length, r = .Hexagonal axis index side_length) ↔
        o = I.map_hexagonal)) := by
  simp only [List.nodup_cons, List.mem_cons, List.mem_singleton, not_or, List.not_mem_nil,
    not_false_eq_true, List.nodup_nil, and_true] at hd
  obtain ⟨⟨h12, h13, h14⟩, ⟨h23, h24⟩, h34⟩ := hd
  have e1 : o = I.map_orthogonal → impl.map.read_orientation I K el = .ok .Orthogonal := by
    intro h
    simp [impl.map.read_orientation, impl.value, ho, h, bind, Except.bind]
  have e2 : o = I.map_isometric → impl.map.read_orientation I K el = .ok .Isometric := by
    intro h
    simp [impl.map.read_orientation, impl.value, ho, h, bind, Except.bind, Ne.symm h12]
  have e3 : o = I.map_staggered → impl.map.read_orientation I K el = (do
      let axis ← impl.map.read_axis I el
      let index ← impl.map.read_index I el
      pure (.Staggered axis index)) := by
    intro h
    simp [impl.map.read_orientation, impl.value, ho, h, bind, Except.bind, Ne.symm h13,
      Ne.symm h23]
  have e4 : o = I.map_hexagonal → impl.map.read_orientation I K el = (do
      let axis ← impl.map.read_axis I el
      let index ← impl.map.read_index I el
      let side_length ← impl.map.read_side_length I K el
      pure (.Hexagonal axis index side_length)) := by
    intro h
    simp [impl.map.read_orientation, impl.value, ho, h, bind, Except.bind, Ne.symm h14,
      Ne.symm h24, Ne.symm h34]
  have e5 : o ∉ [I.map_orthogonal, I.map_isometric, I.map_staggered, I.map_hexagonal] →
      impl.map.read_orientation I K el =
        .error (.Invalid_attribute I.map_orientation (some o)) := by
    intro h
    simp only [List.mem_cons, List.mem_singleton, not_or, List.not_mem_nil, or_false] at h
    simp [impl.map.read_orientation, impl.value, ho, h.1, h.2.1, h.2.2.1, h.2.2.2, bind,
      Except.bind]
  refine ⟨e1, e2, e3, e4, e5, fun r hr => ?_⟩
  by_cases c1 : o = I.map_orthogonal
  · rw [e1 c1] at hr
    cases hr
    subst c1
    simp [h12, h13, h14]
  by_cases c2 : o = I.map_isometric
  · rw [e2 c2] at hr
    cases hr
    subst c2
    simp [Ne.symm h12, h23, h24]
  by_cases c3 : o = I.map_staggered
  · rw [e3 c3] at hr
    simp only [bind, Except.bind, pure, Except.pure] at hr
    cases ha : impl.map.read_axis I el with
    | error e => rw [ha] at hr; cases hr
    | ok a =>
      cases hi : impl.map.read_index I el with
      | error e => rw [ha, hi] at hr; cases hr
      | ok i =>
        rw [ha, hi] at hr
        cases hr
        subst c3
        simp [Ne.symm h13, Ne.symm h23, h34]
  by_cases c4 : o = I.map_hexagonal
  · rw [e4 c4] at hr
    simp only [bind, Except.bind, pure, Except.pure] at hr
    cases ha : impl.map.read_axis I el with
    | error e => rw [ha] at hr; cases hr
    | ok a =>
      cases hi : impl.map.read_index I el with
      | error e => rw [ha, hi] at hr; cases hr
      | ok i =>
        cases hs : impl.map.read_side_length I K el with
        | error e => rw [ha, hi, hs] at hr; cases hr
        | ok s =>
          rw [ha, hi, hs] at hr
          cases hr
          subst c4
          simp [Ne.symm h14, Ne.symm h24, Ne.symm h34]
  · rw [e5 (by simp [c1, c2, c3, c4])] at hr
    cases hr

/-- A witness of C16: the four orientations, the first two on a map element
with nothing but the orientation, and an unknown one. -/
theorem read_orientation_literals_witness :
    impl.map.read_orientation tmx (sample []) (sample_map_of [("orientation", "orthogonal")]) =
      .ok .Orthogonal ∧
    impl.map.read_orientation tmx (sample []) (sample_map_of [("orientation", "isometric")]) =
      .ok .Isometric ∧
    impl.map.read_orientation tmx (sample []) (sample_map_of [("orientation", "staggered"),
      ("staggeraxis", "y"), ("staggerindex", "odd")]) = .ok (.Staggered .y .odd) ∧
    impl.map.read_orientation tmx (sample []) (sample_map_of [("orientation", "hexagonal"),
      ("staggeraxis", "x"), ("staggerindex", "even"), ("hexsidelength", "6")]) =
      .ok (.Hexagonal .x .even (6 : Int)) ∧
    impl.map.read_orientation tmx (sample []) (sample_map_of [("orientation", "oblique")]) =
      .error (.Invalid_attribute "orientation" (some "oblique")) :=
  ⟨(read_orientation_literals tmx (sample []) (sample_map_of [("orientation", "orthogonal")])
      "orthogonal" rfl (by decide)).1 rfl,
   (read_orientation_literals tmx (sample []) (sample_map_of [("orientation", "isometric")])
      "isometric" rfl (by decide)).2.1 rfl,
   ((read_orientation_literals tmx (sample []) (sample_map_of [("orientation", "staggered"),
      ("staggeraxis", "y"), ("staggerindex", "odd")]) "staggered" rfl (by decide)).2.2.1
      rfl).trans rfl,
   ((read_orientation_literals tmx (sample []) (sample_map_of [("orientation", "hexagonal"),
      ("staggeraxis", "x"), ("staggerindex", "even"), ("hexsidelength", "6")]) "hexagonal" rfl
      (by decide)).2.2.2.1 rfl).trans rfl,
   (read_orientation_literals tmx (sample []) (sample_map_of [("orientation", "oblique")])
      "oblique" rfl (by decide)).2.2.2.2.1 (by decide)⟩

/-! ## C17: non-negative durations, counts, spacing and margin -/

namespace impl

theorem Non_negative_fails {N : Type} (A : Arithmetic N) (x : N) (h : A.le A.zero x = false) :
    ∃ e, Non_negative A x = .error e := by
  simp only [Non_negative, h, Bool.false_eq_true, if_false]
  exact ⟨_, rfl⟩

theorem read_tile_count_negative (I : Tmx_info) (K : Collaborators) (el : Xml.Element)
    (v : String) (n : Int) (hv : optional_value el I.tile_set_tile_count = some v)
    (hn : K.from_string_int v = .ok n) (hneg : n < 0) :
    ∃ e, tile_set.read_tile_count I K el = .error e := by
  simp only [tile_set.read_tile_count, value, hv, bind, Except.bind, hn]
  exact Non_negative_fails int_arithmetic n (by simp [int_arithmetic]; omega)

theorem read_columns_negative (I : Tmx_info) (K : Collaborators) (el : Xml.Element)
    (v : String) (n : Int) (hv : optional_value el I.tile_set_columns = some v)
    (hn : K.from_string_int v = .ok n) (hneg : n < 0) :
    ∃ e, tile_set.read_columns I K el = .error e := by
  simp only [tile_set.read_columns, value, hv, bind, Except.bind, hn]
  exact Non_negative_fails int_arithmetic n (by simp [int_arithmetic]; omega)

theorem read_spacing_negative (I : Tmx_info) (K : Collaborators) (el : Xml.Element)
    (v : String) (p : K.Pixel) (hv : optional_value el I.tile_set_spacing = some v)
    (hp : K.from_string_pixel v = .ok p) (hneg : K.pixel.le K.pixel.zero p = false) :
    ∃ e, tile_set.tile_set.read_spacing I K el = .error e := by
  simp only [tile_set.tile_set.read_spacing, hv, bind, Except.bind, hp]
  exact Non_negative_fails K.pixel p hneg

theorem read_margin_negative (I : Tmx_info) (K : Collaborators) (el : Xml.Element)
    (v : String) (p : K.Pixel) (hv : optional_value el I.tile_set_margin = some v)
    (hp : K.from_string_pixel v = .ok p) (hneg : K.pixel.le K.pixel.zero p = false) :
    ∃ e, tile_set.tile_set.read_margin I K el = .error e := by
  simp only [tile_set.tile_set.read_margin, hv, bind, Except.bind, hp]
  exact Non_negative_fails K.pixel p hneg

theorem read_tile_set_fails_of_spacing (I : Tmx_info) (K : Collaborators) (el : Xml.Element)
    (h : ∃ e, tile_set.tile_set.read_spacing I K el = .error e) (first_id : Nat) (tsx : File) :
    ∃ e, tile_set.tile_set.read_tile_set I K el first_id tsx = .error e := by
  unfold tile_set.tile_set.read_tile_set
  exact bind_fails_right _ (fun _ => bind_fails_left _ h)

theorem read_tile_set_fails_of_margin (I : Tmx_info) (K : Collaborators) (el : Xml.Element)
    (h : ∃ e, tile_set.tile_set.read_margin I K el = .error e) (first_id : Nat) (tsx : File) :
    ∃ e, tile_set.tile_set.read_tile_set I K el first_id tsx = .error e := by
  unfold tile_set.tile_set.read_tile_set
  exact bind_fails_right _ (fun _ => bind_fails_right _ (fun _ => bind_fails_left _ h))

theorem read_tile_set_fails_of_size (I : Tmx_info) (K : Collaborators) (el : Xml.Element)
    (h : ∃ e, tile_set.tile_set.read_size I K el = .error e) (first_id : Nat) (tsx : File) :
    ∃ e, tile_set.tile_set.read_tile_set I K el first_id tsx = .error e := by
  unfold tile_set.tile_set.read_tile_set
  exact bind_fails_right _ (fun _ => bind_fails_right _ (fun _ => bind_fails_right _ (fun _ =>
    bind_fails_left _ h)))

end impl

/-- C17: `animation::read_frame` throws when the duration attribute parses to a
negative number, and when it parses to `d >= 0` and the tile-id attribute
parses to `i` it returns the frame with id `i` and a duration of exactly `d`
milliseconds. The same check makes `read_tile_count`, `read_columns`,
`read_spacing` and `read_margin`, and with them `read_tile_set`, throw on a
tile-set element whose tile-count, columns, spacing or margin attribute parses
to a negative number (for the pixel type, a number below zero is one for
which `0 <= p` does not hold). -/
theorem read_frame_non_negative (I : Tmx_info) (K : Collaborators)
    (hpixel : ∀ p, K.pixel.lt p K.pixel.zero = true → K.pixel.le K.pixel.zero p = false) :
    (∀ (frame : Xml.Element) v d, impl.optional_value frame I.frame_duration = some v →
      K.from_string_rep v = .ok d →
      (d < 0 → ∃ e, impl.animation.read_frame I K frame = .error e) ∧
      (0 ≤ d → ∀ w i, impl.optional_value frame I.frame_id = some w →
        K.from_string_local_tile_id w = .ok i →
        impl.animation.read_frame I K frame = .ok ⟨i, d⟩)) ∧
    (∀ (el : Xml.Element) v n, K.from_string_int v = .ok n → n < 0 →
      (impl.optional_value el I.tile_set_tile_count = some v →
        (∃ e, impl.tile_set.read_tile_count I K el = .error e) ∧
        ∀ first_id tsx, ∃ e,
          impl.tile_set.tile_set.read_tile_set I K el first_id tsx = .error e) ∧
      (impl.optional_value el I.tile_set_columns = some v →
        (∃ e, impl.tile_set.read_columns I K el = .error e) ∧
        ∀ first_id tsx, ∃ e,
          impl.tile_set.tile_set.read_tile_set I K el first_id tsx = .error e)) ∧
    (∀ (el : Xml.Element) v p, K.from_string_pixel v = .ok p →
      K.pixel.lt p K.pixel.zero = true →
      (impl.optional_value el I.tile_set_spacing = some v →
        (∃ e, impl.tile_set.tile_set.read_spacing I K el = .error e) ∧
        ∀ first_id tsx, ∃ e,
          impl.tile_set.tile_set.read_tile_set I K el first_id tsx = .error e) ∧
      (impl.optional_value el I.tile_set_margin = some v →
        (∃ e, impl.tile_set.tile_set.read_margin I K el = .error e) ∧
        ∀ first_id tsx, ∃ e,
          impl.tile_set.tile_set.read_tile_set I K el first_id tsx = .error e)) := by
  refine ⟨fun frame v d hv hd => ⟨fun hneg => ?_, fun hpos w i hw hi => ?_⟩,
    fun el v n hn hneg => ⟨fun hv => ?_, fun hv => ?_⟩,
    fun el v p hp hneg => ⟨fun hv => ?_, fun hv => ?_⟩⟩
  · unfold impl.animation.read_frame
    refine impl.bind_fails_right _ (fun _ => impl.bind_fails_left _ ?_)
    simp only [impl.animation.read_duration, impl.value, hv, bind, Except.bind, hd]
    exact impl.Non_negative_fails int_arithmetic d (by simp [int_arithmetic]; omega)
  · simp [impl.animation.read_frame, impl.animation.read_id, impl.animation.read_duration,
      impl.value, hv, hd, hw, hi, bind, Except.bind, pure, Except.pure, Non_negative,
      int_arithmetic, hpos]
  · have h := impl.read_tile_count_negative I K el v n hv hn hneg
    refine ⟨h, impl.read_tile_set_fails_of_size I K el ?_⟩
    unfold impl.tile_set.tile_set.read_size
    exact impl.bind_fails_left _ h
  · have h := impl.read_columns_negative I K el v n hv hn hneg
    refine ⟨h, impl.read_tile_set_fails_of_size I K el ?_⟩
    unfold impl.tile_set.tile_set.read_size
    exact impl.bind_fails_right _ (fun _ => impl.bind_fails_left _ h)
  · have h := impl.read_spacing_negative I K el v p hv hp (hpixel p hneg)
    exact ⟨h, impl.read_tile_set_fails_of_spacing I K el h⟩
  · have h := impl.read_margin_negative I K el v p hv hp (hpixel p hneg)
    exact ⟨h, impl.read_tile_set_fails_of_margin I K el h⟩

/-- A witness of C17: the frames with the durations -1, 0 and 250, and the
sheet tile sets with a spacing of -1 and a tile count of -4. -/
theorem read_frame_non_negative_witness :
    (∃ e, impl.animation.read_frame tmx (sample []) (sample_frame "3" "-1") = .error e) ∧
    impl.animation.read_frame tmx (sample []) (sample_frame "3" "0") = .ok ⟨3, 0⟩ ∧
    impl.animation.read_frame tmx (sample []) (sample_frame "3" "250") = .ok ⟨3, 250⟩ ∧
    (∃ e, impl.tile_set.tile_set.read_tile_set tmx (sample [])
      (sample_sheet_of [("spacing", "-1"), ("tilecount", "8"), ("columns", "4")]) 1 "" =
      .error e) ∧
    (∃ e, impl.tile_set.read_tile_count tmx (sample [])
      (sample_sheet_of [("tilecount", "-4"), ("columns", "4")]) = .error e) := by
  have h := read_frame_non_negative tmx (sample [])
    (fun p hp => by
      simp only [sample, int_arithmetic, decide_eq_true_eq, decide_eq_false_iff_not] at hp ⊢
      omega)
  exact ⟨((h.1 (sample_frame "3" "-1") "-1" (-1) rfl rfl).1 (by decide)),
    (h.1 (sample_frame "3" "0") "0" 0 rfl rfl).2 (by decide) "3" 3 rfl rfl,
    (h.1 (sample_frame "3" "250") "250" 250 rfl rfl).2 (by decide) "3" 3 rfl rfl,
    ((h.2.2 (sample_sheet_of [("spacing", "-1"), ("tilecount", "8"), ("columns", "4")]) "-1"
      (-1 : Int) rfl rfl).1 rfl).2 1 "",
    ((h.2.1 (sample_sheet_of [("tilecount", "-4"), ("columns", "4")]) "-4" (-4) rfl
      (by decide)).1 rfl).1⟩

/-! ## C18: equality of frames and of sizes -/

/-- C18: `l == r` on frames holds exactly when the tile ids are equal and the
durations are equal, and on sizes exactly when the widths are equal and the
heights are equal (the dimensions compared by a lawful `==`); in both cases
`l != r` is the negation of `l == r`, and `==` is reflexive, symmetric and
transitive. -/
theorem frame_size_equality {N : Type} [BEq N] [LawfulBEq N] :
    (∀ l r : Frame, Frame.operator_eq l r = true ↔ l.id = r.id ∧ l.duration = r.duration) ∧
    (∀ l r : Frame, Frame.operator_ne l r = !Frame.operator_eq l r) ∧
    (∀ l : Frame, Frame.operator_eq l l = true) ∧
    (∀ l r : Frame, Frame.operator_eq l r = Frame.operator_eq r l) ∧
    (∀ l m r : Frame, Frame.operator_eq l m = true → Frame.operator_eq m r = true →
      Frame.operator_eq l r = true) ∧
    (∀ l r : Size N, Size.operator_eq l r = true ↔ l.w = r.w ∧ l.h = r.h) ∧
    (∀ l r : Size N, Size.operator_ne l r = !Size.operator_eq l r) ∧
    (∀ l : Size N, Size.operator_eq l l = true) ∧
    (∀ l r : Size N, Size.operator_eq l r = Size.operator_eq r l) ∧
    (∀ l m r : Size N, Size.operator_eq l m = true → Size.operator_eq m r = true →
      Size.operator_eq l r = true) := by
  have hf : ∀ l r : Frame, Frame.operator_eq l r = true ↔
      l.id = r.id ∧ l.duration = r.duration := by
    intro l r
    simp [Frame.operator_eq]
  have hs : ∀ l r : Size N, Size.operator_eq l r = true ↔ l.w = r.w ∧ l.h = r.h := by
    intro l r
    simp [Size.operator_eq]
  refine ⟨hf, fun _ _ => rfl, fun l => (hf l l).mpr ⟨rfl, rfl⟩, fun l r => ?_,
    fun l m r h1 h2 => ?_, hs, fun _ _ => rfl, fun l => (hs l l).mpr ⟨rfl, rfl⟩,
    fun l r => ?_, fun l m r h1 h2 => ?_⟩
  · rw [Bool.eq_iff_iff, hf, hf]
    exact ⟨fun h => ⟨h.1.symm, h.2.symm⟩, fun h => ⟨h.1.symm, h.2.symm⟩⟩
  · rw [hf] at h1 h2 ⊢
    exact ⟨h1.1.trans h2.1, h1.2.trans h2.2⟩
  · rw [Bool.eq_iff_iff, hs, hs]
    exact ⟨fun h => ⟨h.1.symm, h.2.symm⟩, fun h => ⟨h.1.symm, h.2.symm⟩⟩
  · rw [hs] at h1 h2 ⊢
    exact ⟨h1.1.trans h2.1, h1.2.trans h2.2⟩

/-- A witness of C18: frames and integer sizes that are equal, and that differ in
one member. -/
theorem frame_size_equality_witness :
    Frame.operator_eq ⟨3, 250⟩ ⟨3, 250⟩ = true ∧
    Frame.operator_eq ⟨3, 250⟩ ⟨3, 100⟩ = false ∧
    Frame.operator_ne ⟨3, 250⟩ ⟨4, 250⟩ = true ∧
    Size.operator_eq (⟨4, 2⟩ : Size Int) ⟨4, 2⟩ = true ∧
    Size.operator_ne (⟨4, 2⟩ : Size Int) ⟨2, 4⟩ = true ∧
    (Size.operator_eq (⟨4, 2⟩ : Size Int) ⟨4, 2⟩ = true ↔
      (4 : Int) = 4 ∧ (2 : Int) = 2) :=
  ⟨by decide, by decide, by decide, by decide, by decide,
    (frame_size_equality : _ ∧ _ ∧ _ ∧ _ ∧ _ ∧
      (∀ l r : Size Int, Size.operator_eq l r = true ↔ l.w = r.w ∧ l.h = r.h) ∧ _).2.2.2.2.2.1
      ⟨4, 2⟩ ⟨4, 2⟩⟩

/-! ## C19: the rows of a sheet tile set -/

/-- C19: on a sheet tile-set element whose tile count reads as `tile_count`
and whose columns read as `columns > 0`, `read_size` throws, for the rows that
are not positive, whenever `tile_count < columns` (so for a tile count of 0);
whenever `tile_count >= columns` it returns the grid of `columns` by the
truncated quotient `tile_count / columns`, which is at least 1. -/
theorem read_size_rows (I : Tmx_info) (K : Collaborators) (el : Xml.Element)
    (tile_count columns : Int) (htc : impl.tile_set.read_tile_count I K el = .ok tile_count)
    (hc : impl.tile_set.read_columns I K el = .ok columns) (hpos : 0 < columns) :
    (tile_count < columns →
      Int.tdiv tile_count columns = 0 ∧
      Positive int_arithmetic (Int.tdiv tile_count columns) =
        .error (.Invalid_argument "Positive") ∧
      impl.tile_set.tile_set.read_size I K el = .error (.Invalid_argument "Positive")) ∧
    (columns ≤ tile_count →
      impl.tile_set.tile_set.read_size I K el = .ok ⟨columns, Int.tdiv tile_count columns⟩ ∧
      1 ≤ Int.tdiv tile_count columns) := by
  have h0 := impl.read_tile_count_nonneg I K el tile_count htc
  have hdiv : Int.tdiv tile_count columns = tile_count / columns :=
    Int.tdiv_eq_ediv h0 hpos.le
  have hne : columns ≠ 0 := hpos.ne'
  constructor
  · intro hlt
    have hz : Int.tdiv tile_count columns = 0 := by
      rw [hdiv]; exact Int.ediv_eq_zero_of_lt h0 hlt
    refine ⟨hz, by rw [hz]; rfl, ?_⟩
    simp [impl.tile_set.tile_set.read_size, htc, hc, hne, bind, Except.bind, hz, Positive,
      int_arithmetic, hpos]
  · intro hle
    have h1 : 1 ≤ Int.tdiv tile_count columns := by
      rw [hdiv, Int.le_ediv_iff_mul_le hpos]
      omega
    refine ⟨?_, h1⟩
    have h1' : 0 < Int.tdiv tile_count columns := by omega
    simp [impl.tile_set.tile_set.read_size, htc, hc, hne, bind, Except.bind, Positive,
      int_arithmetic, hpos, h1', pure, Except.pure]

/-- A witness of C19: 4 columns with the tile counts 0, 3, 4 and 11. -/
theorem read_size_rows_witness :
    impl.tile_set.tile_set.read_size tmx (sample []) (sample_sheet "0" "4") =
      .error (.Invalid_argument "Positive") ∧
    impl.tile_set.tile_set.read_size tmx (sample []) (sample_sheet "3" "4") =
      .error (.Invalid_argument "Positive") ∧
    impl.tile_set.tile_set.read_size tmx (sample []) (sample_sheet "4" "4") = .ok ⟨4, 1⟩ ∧
    impl.tile_set.tile_set.read_size tmx (sample []) (sample_sheet "11" "4") = .ok ⟨4, 2⟩ :=
  ⟨((read_size_rows tmx (sample []) (sample_sheet "0" "4") 0 4 rfl rfl (by decide)).1
      (by decide)).2.2,
   ((read_size_rows tmx (sample []) (sample_sheet "3" "4") 3 4 rfl rfl (by decide)).1
      (by decide)).2.2,
   ((read_size_rows tmx (sample []) (sample_sheet "4" "4") 4 4 rfl rfl (by decide)).2
      (by decide)).1,
   ((read_size_rows tmx (sample []) (sample_sheet "11" "4") 11 4 rfl rfl (by decide)).2
      (by decide)).1⟩

/-! ## C20: the defaults of a layer -/

namespace impl

theorem read_layer_ok (I : Tmx_info) (K : Collaborators) (el : Xml.Element) (l : Layer K)
    (h : layer.read_layer I K el = .ok l) :
    l.name = layer.read_name I el ∧ layer.read_opacity I K el = .ok l.opacity ∧
    layer.read_visible I K el = .ok l.visible ∧ layer.read_offset I K el = .ok l.offset ∧
    properties.read_properties I K el = .ok l.properties := by
  unfold layer.read_layer at h
  cases h1 : layer.read_opacity I K el with
  | error e => rw [h1] at h; cases h
  | ok o =>
    cases h2 : layer.read_visible I K el with
    | error e => rw [h1, h2] at h; cases h
    | ok v =>
      cases h3 : layer.read_offset I K el with
      | error e => rw [h1, h2, h3] at h; cases h
      | ok f =>
        cases h4 : properties.read_properties I K el with
        | error e => rw [h1, h2, h3, h4] at h; cases h
        | ok p =>
          rw [h1, h2, h3, h4] at h
          cases h
          exact ⟨rfl, rfl, rfl, rfl, rfl⟩

theorem read_offset_ok (I : Tmx_info) (K : Collaborators) (el : Xml.Element)
    (o : Point K.Pixel) (h : layer.read_offset I K el = .ok o) :
    (optional_value el I.offset_x = none → o.x = K.pixel.zero) ∧
    (optional_value el I.offset_y = none → o.y = K.pixel.zero) := by
  constructor
  · intro hx
    simp only [layer.read_offset, hx, bind, Except.bind, pure, Except.pure] at h
    cases hy : optional_value el I.offset_y with
    | none =>
      simp only [hy] at h
      exact (congrArg Point.x (Except.ok.inj h)).symm
    | some w =>
      simp only [hy] at h
      cases hw : K.from_string_pixel w with
      | error e => simp only [hw] at h; cases h
      | ok y =>
        simp only [hw] at h
        exact (congrArg Point.x (Except.ok.inj h)).symm
  · intro hy
    simp only [layer.read_offset, hy, bind, Except.bind, pure, Except.pure] at h
    cases hx : optional_value el I.offset_x with
    | none =>
      simp only [hx] at h
      exact (congrArg Point.y (Except.ok.inj h)).symm
    | some w =>
      simp only [hx] at h
      cases hw : K.from_string_pixel w with
      | error e => simp only [hw] at h; cases h
      | ok x =>
        simp only [hw] at h
        exact (congrArg Point.y (Except.ok.inj h)).symm

end impl

/-- C20: each of the name, opacity, visibility and offset of a layer takes its
default when its own attribute is absent, whatever the others are: the name
is empty, the opacity is 1, the layer is visible, the offset coordinate is 0
(an offset with only x present has the parsed x and y = 0). So on a layer
element with none of these attributes `layer::read_layer` returns the name
empty, the opacity 1, visible, the offset (0, 0) and the properties it reads;
and the layer of a tile, object or image layer is the one `layer::read_layer`
returns. -/
theorem read_layer_defaults (I : Tmx_info) (K : Collaborators) (el : Xml.Element) :
    (impl.optional_value el I.layer_name = none → impl.layer.read_name I el = "") ∧
    (impl.optional_value el I.layer_opacity = none →
      impl.layer.read_opacity I K el = .ok K.double_one) ∧
    (impl.optional_value el I.layer_visible = none →
      impl.layer.read_visible I K el = .ok true) ∧
    (impl.optional_value el I.offset_x = none → impl.optional_value el I.offset_y = none →
      impl.layer.read_offset I K el = .ok ⟨K.pixel.zero, K.pixel.zero⟩) ∧
    (∀ v, impl.optional_value el I.offset_x = some v →
      impl.optional_value el I.offset_y = none →
      impl.layer.read_offset I K el =
        (K.from_string_pixel v).map (fun x => ⟨x, K.pixel.zero⟩)) ∧
    (∀ v, impl.optional_value el I.offset_x = none →
      impl.optional_value el I.offset_y = some v →
      impl.layer.read_offset I K el =
        (K.from_string_pixel v).map (fun y => ⟨K.pixel.zero, y⟩)) ∧
    (impl.optional_value el I.layer_name = none →
      impl.optional_value el I.layer_opacity = none →
      impl.optional_value el I.layer_visible = none →
      impl.optional_value el I.offset_x = none → impl.optional_value el I.offset_y = none →
      impl.layer.read_layer I K el =
        (impl.properties.read_properties I K el).map
          (fun p => ⟨"", K.double_one, true, ⟨K.pixel.zero, K.pixel.zero⟩, p⟩)) ∧
    (∀ l, impl.layer.read_layer I K el = .ok l →
      (impl.optional_value el I.layer_name = none → l.name = "") ∧
      (impl.optional_value el I.layer_opacity = none → l.opacity = K.double_one) ∧
      (impl.optional_value el I.layer_visible = none → l.visible = true) ∧
      (impl.optional_value el I.offset_x = none → l.offset.x = K.pixel.zero) ∧
      (impl.optional_value el I.offset_y = none → l.offset.y = K.pixel.zero)) ∧
    (∀ t, impl.tile_layer.read_tile_layer I K el = .ok t →
      impl.layer.read_layer I K el = .ok t.layer) ∧
    (∀ t, impl.object_layer.read_object_layer I K el = .ok t →
      impl.layer.read_layer I K el = .ok t.layer) ∧
    (∀ t, impl.image_layer.read_image_layer I K el = .ok t →
      impl.layer.read_layer I K el = .ok t.layer) := by
  have hname : impl.optional_value el I.layer_name = none → impl.layer.read_name I el = "" := by
    intro h; simp only [impl.layer.read_name, h]
  have hopacity : impl.optional_value el I.layer_opacity = none →
      impl.layer.read_opacity I K el = .ok K.double_one := by
    intro h; simp only [impl.layer.read_opacity, h]
  have hvisible : impl.optional_value el I.layer_visible = none →
      impl.layer.read_visible I K el = .ok true := by
    intro h; simp only [impl.layer.read_visible, h]
  have hoffset : impl.optional_value el I.offset_x = none →
      impl.optional_value el I.offset_y = none →
      impl.layer.read_offset I K el = .ok ⟨K.pixel.zero, K.pixel.zero⟩ := by
    intro hx hy; simp only [impl.layer.read_offset, hx, hy]; rfl
  refine ⟨hname, hopacity, hvisible, hoffset, fun v hx hy => ?_, fun v hx hy => ?_,
    fun h1 h2 h3 h4 h5 => ?_, fun l hl => ?_, fun t ht => ?_, fun t ht => ?_, fun t ht => ?_⟩
  · simp only [impl.layer.read_offset, hx, hy, bind, Except.bind, Except.map, pure,
      Except.pure]
  · simp only [impl.layer.read_offset, hx, hy, bind, Except.bind, Except.map, pure,
      Except.pure]
  · simp only [impl.layer.read_layer, hname h1, hopacity h2, hvisible h3, hoffset h4 h5,
      bind, Except.bind, Except.map, pure, Except.pure]
  · obtain ⟨e1, e2, e3, e4, _⟩ := impl.read_layer_ok I K el l hl
    obtain ⟨ox, oy⟩ := impl.read_offset_ok I K el l.offset e4
    refine ⟨fun h => by rw [e1, hname h], fun h => ?_, fun h => ?_, ox, oy⟩
    · rw [hopacity h] at e2; exact (Except.ok.inj e2).symm
    · rw [hvisible h] at e3; exact (Except.ok.inj e3).symm
  · unfold impl.tile_layer.read_tile_layer at ht
    cases h1 : impl.layer.read_layer I K el with
    | error e => rw [h1] at ht; cases ht
    | ok l =>
      rw [h1] at ht
      simp only [bind, Except.bind, pure, Except.pure] at ht
      split at ht
      · cases ht
      · split at ht
        · cases ht
        · cases ht; rfl
  · unfold impl.object_layer.read_object_layer at ht
    cases h1 : impl.layer.read_layer I K el with
    | error e => rw [h1] at ht; cases ht
    | ok l =>
      rw [h1] at ht
      simp only [bind, Except.bind, pure, Except.pure] at ht
      split at ht
      · cases ht
      · split at ht
        · cases ht
        · split at ht
          · cases ht
          · cases ht; rfl
  · unfold impl.image_layer.read_image_layer at ht
    cases h1 : impl.layer.read_layer I K el with
    | error e => rw [h1] at ht; cases ht
    | ok l =>
      rw [h1] at ht
      simp only [bind, Except.bind, pure, Except.pure] at ht
      split at ht
      · cases ht
      · cases ht; rfl

/-- A witness of C20: an image layer element without attributes has all four
defaults, as read by `read_layer` and by `read_image_layer`; a layer with only
`offsetx` has y = 0, and a layer with only an opacity keeps the other
defaults. -/
theorem read_layer_defaults_witness :
    impl.layer.read_layer tmx (sample []) (sample_layer "imagelayer" []) =
      .ok ⟨"", (1 : Int), true, ⟨(0 : Int), (0 : Int)⟩, []⟩ ∧
    impl.image_layer.read_image_layer tmx (sample []) (sample_layer "imagelayer" []) =
      .ok ⟨⟨"", (1 : Int), true, ⟨(0 : Int), (0 : Int)⟩, []⟩, none⟩ ∧
    impl.layer.read_offset tmx (sample []) (sample_layer "objectgroup" [("offsetx", "5")]) =
      .ok ⟨(5 : Int), (0 : Int)⟩ ∧
    impl.layer.read_layer tmx (sample []) (sample_layer "objectgroup" [("opacity", "0")]) =
      .ok ⟨"", (0 : Int), true, ⟨(0 : Int), (0 : Int)⟩, []⟩ :=
  ⟨((read_layer_defaults tmx (sample []) (sample_layer "imagelayer" [])).2.2.2.2.2.2.1 rfl rfl
      rfl rfl rfl).trans rfl,
   rfl,
   ((read_layer_defaults tmx (sample []) (sample_layer "objectgroup"
      [("offsetx", "5")])).2.2.2.2.1 "5" rfl rfl).trans rfl,
   rfl⟩

/-! ## C21: an optional size -/

/-- C21: `read_optional_size` throws when exactly one of the width and height
attributes is present; it returns no size exactly when both are absent; with
both present it returns the size of the two values when both parse as
positive numbers and throws when one of them does not. So it throws exactly
when one attribute is present without the other or a present value does not
parse as a positive number. `read_image` throws with it, while `read_shape`
on an object with a polyline child, or with a polygon child, reads the shape
from that child's points whatever the width and height attributes are. -/
theorem read_optional_size_cases (I : Tmx_info) (K : Collaborators) (el : Xml.Element) :
    ((impl.optional_value el I.size_width).isSome ≠ (impl.optional_value el I.size_height).isSome →
      impl.read_optional_size I K el = .error (.Exception
        ("Expected both " ++ I.size_width ++ " and " ++ I.size_height ++ ", or none.")) ∧
      ∃ e, impl.image.read_image I K el = .error e) ∧
    (impl.read_optional_size I K el = .ok none ↔
      impl.optional_value el I.size_width = none ∧
        impl.optional_value el I.size_height = none) ∧
    (∀ w h, impl.optional_value el I.size_width = some w →
      impl.optional_value el I.size_height = some h →
      (∀ pw ph, impl.from_string_positive K.pixel K.from_string_pixel w = .ok pw →
        impl.from_string_positive K.pixel K.from_string_pixel h = .ok ph →
        impl.read_optional_size I K el = .ok (some ⟨pw, ph⟩)) ∧
      ((∃ e, impl.read_optional_size I K el = .error e) ↔
        (∃ e, impl.from_string_positive K.pixel K.from_string_pixel w = .error e) ∨
        (∃ e, impl.from_string_positive K.pixel K.from_string_pixel h = .error e))) ∧
    ((∃ e, impl.read_optional_size I K el = .error e) ↔
      (impl.optional_value el I.size_width).isSome ≠
          (impl.optional_value el I.size_height).isSome ∨
        ∃ w h, impl.optional_value el I.size_width = some w ∧
          impl.optional_value el I.size_height = some h ∧
          ((∃ e, impl.from_string_positive K.pixel K.from_string_pixel w = .error e) ∨
            (∃ e, impl.from_string_positive K.pixel K.from_string_pixel h = .error e))) ∧
    (∀ polyline, el.optional_child I.object_polyline = some polyline →
      impl.object.read_shape I K el =
        (impl.object.read_points I K polyline).map (fun p => some (.Polyline p))) ∧
    (el.optional_child I.object_polyline = none →
      ∀ polygon, el.optional_child I.object_polygon = some polygon →
        impl.object.read_shape I K el =
          (impl.object.read_points I K polygon).map (fun p => some (.Polygon p))) := by
  have hboth : ∀ w h, impl.optional_value el I.size_width = some w →
      impl.optional_value el I.size_height = some h →
      impl.read_optional_size I K el =
        (match impl.from_string_positive K.pixel K.from_string_pixel w with
          | .error e => .error e
          | .ok pw =>
            match impl.from_string_positive K.pixel K.from_string_pixel h with
            | .error e => .error e
            | .ok ph => .ok (some ⟨pw, ph⟩)) := by
    intro w h hw hh
    simp only [impl.read_optional_size, hw, hh, Option.isSome_some, bne_self_eq_false,
      Bool.false_eq_true, if_false, bind, Except.bind, pure, Except.pure]
    cases impl.from_string_positive K.pixel K.from_string_pixel w with
    | error e => rfl
    | ok pw => cases impl.from_string_positive K.pixel K.from_string_pixel h <;> rfl
  have hfail : ∀ w h, impl.optional_value el I.size_width = some w →
      impl.optional_value el I.size_height = some h →
      ((∃ e, impl.read_optional_size I K el = .error e) ↔
        (∃ e, impl.from_string_positive K.pixel K.from_string_pixel w = .error e) ∨
        (∃ e, impl.from_string_positive K.pixel K.from_string_pixel h = .error e)) := by
    intro w h hw hh
    rw [hboth w h hw hh]
    cases impl.from_string_positive K.pixel K.from_string_pixel w <;>
      cases impl.from_string_positive K.pixel K.from_string_pixel h <;> simp
  refine ⟨fun hne => ?_, ?_, fun w h hw hh => ⟨fun pw ph hpw hph => ?_, hfail w h hw hh⟩, ?_,
    fun polyline h => ?_, fun h1 polygon h => ?_⟩
  · have e : impl.read_optional_size I K el = .error (.Exception
        ("Expected both " ++ I.size_width ++ " and " ++ I.size_height ++ ", or none.")) := by
      simp only [impl.read_optional_size]
      rw [if_pos (by simpa [bne_iff_ne] using hne)]
    refine ⟨e, ?_⟩
    unfold impl.image.read_image
    exact impl.bind_fails_right _ (fun _ => impl.bind_fails_right _ (fun _ =>
      impl.bind_fails_left _ ⟨_, e⟩))
  · cases hw : impl.optional_value el I.size_width with
    | none =>
      cases hh : impl.optional_value el I.size_height with
      | none => simp [impl.read_optional_size, hw, hh]
      | some h => simp [impl.read_optional_size, hw, hh]
    | some w =>
      cases hh : impl.optional_value el I.size_height with
      | none => simp [impl.read_optional_size, hw, hh]
      | some h =>
        rw [hboth w h hw hh]
        cases impl.from_string_positive K.pixel K.from_string_pixel w <;>
          cases impl.from_string_positive K.pixel K.from_string_pixel h <;> simp
  · rw [hboth w h hw hh, hpw, hph]
  · cases hw : impl.optional_value el I.size_width with
    | none =>
      cases hh : impl.optional_value el I.size_height with
      | none => simp [impl.read_optional_size, hw, hh]
      | some h => simp [impl.read_optional_size, hw, hh]
    | some w =>
      cases hh : impl.optional_value el I.size_height with
      | none => simp [impl.read_optional_size, hw, hh]
      | some h =>
        rw [hfail w h hw hh]
        simp
  · simp only [impl.object.read_shape, h]
  · simp only [impl.object.read_shape, h1, h]

/-- A witness of C21: an object with only a width is refused by
`read_optional_size`, and read by `read_shape` and `read_object` when it has a
polyline child; no attribute gives no size, `width="4" height="2"` the size 4
by 2, and `height="0"` is refused. -/
theorem read_optional_size_cases_witness :
    impl.read_optional_size tmx (sample []) (sample_object [("width", "4")] []) =
      .error (.Exception "Expected both width and height, or none.") ∧
    impl.read_optional_size tmx (sample []) (sample_object [] []) = .ok none ∧
    impl.read_optional_size tmx (sample []) (sample_object [("width", "4"), ("height", "2")] []) =
      .ok (some ⟨(4 : Int), (2 : Int)⟩) ∧
    (∃ e, impl.read_optional_size tmx (sample [])
      (sample_object [("width", "4"), ("height", "0")] []) = .error e) ∧
    impl.object.read_shape tmx (sample [])
      (sample_object [("width", "4")] [sample_poly "polyline" "0,0 3,4"]) =
      .ok (some (.Polyline [⟨(0 : Int), (0 : Int)⟩, ⟨(3 : Int), (4 : Int)⟩])) ∧
    (impl.object.read_object tmx (sample [])
      (sample_object [("width", "4")] [sample_poly "polyline" "0,0 3,4"])).isOk = true :=
  ⟨((read_optional_size_cases tmx (sample []) (sample_object [("width", "4")] [])).1
      (by decide)).1,
   (read_optional_size_cases tmx (sample []) (sample_object [] [])).2.1.mpr ⟨rfl, rfl⟩,
   ((read_optional_size_cases tmx (sample [])
      (sample_object [("width", "4"), ("height", "2")] [])).2.2.1 "4" "2" rfl rfl).1
      (4 : Int) (2 : Int) rfl rfl,
   ((read_optional_size_cases tmx (sample [])
      (sample_object [("width", "4"), ("height", "0")] [])).2.2.1 "4" "0" rfl rfl).2.mpr
      (Or.inr ⟨_, rfl⟩),
   ((read_optional_size_cases tmx (sample [])
      (sample_object [("width", "4")] [sample_poly "polyline" "0,0 3,4"])).2.2.2.2.1
      (sample_poly "polyline" "0,0 3,4") rfl).trans rfl,
   rfl⟩

/-! ## C22: an empty source attribute -/

namespace impl

theorem readers_agree (I : Tmx_info) (K : Collaborators) (el el' : Xml.Element)
    (hnodes : el'.nodes = el.nodes)
    (ha : ∀ n ∈ [I.tile_set_name, I.tile_size_width, I.tile_size_height, I.tile_set_spacing,
      I.tile_set_margin, I.tile_set_tile_count, I.tile_set_columns],
      optional_value el' n = optional_value el n) :
    tile_set.is_tile_set I el' = tile_set.is_tile_set I el ∧
    (∀ g s, tile_set.tile_set.read_tile_set I K el' g s =
      tile_set.tile_set.read_tile_set I K el g s) ∧
    (∀ g s, tile_set.image_collection.read_image_collection I K el' g s =
      tile_set.image_collection.read_image_collection I K el g s) := by
  have e1 := ha I.tile_set_name (by simp)
  have e2 := ha I.tile_size_width (by simp)
  have e3 := ha I.tile_size_height (by simp)
  have e4 := ha I.tile_set_spacing (by simp)
  have e5 := ha I.tile_set_margin (by simp)
  have e6 := ha I.tile_set_tile_count (by simp)
  have e7 := ha I.tile_set_columns (by simp)
  refine ⟨?_, fun g s => ?_, fun g s => ?_⟩
  · simp only [tile_set.is_tile_set, Xml.Element.optional_child, hnodes]
  · simp only [tile_set.tile_set.read_tile_set, tile_set.read_name, read_tile_size, value,
      tile_set.tile_set.read_spacing, tile_set.tile_set.read_margin,
      tile_set.tile_set.read_size, tile_set.read_tile_count, tile_set.read_columns,
      tile_set.read_tile_offset, properties.read_properties, tile_set.tile_set.read_tiles,
      Xml.Element.child, Xml.Element.optional_child, Xml.Element.children, hnodes,
      e1, e2, e3, e4, e5, e6, e7]
  · simp only [tile_set.image_collection.read_image_collection, tile_set.read_name,
      read_tile_size, value, tile_set.read_tile_count, tile_set.read_columns,
      tile_set.read_tile_offset, properties.read_properties,
      tile_set.image_collection.read_tiles, Xml.Element.child, Xml.Element.optional_child,
      Xml.Element.children, hnodes, e1, e2, e3, e6, e7]

theorem read_map_tile_set_embedded (I : Tmx_info) (K : Collaborators) (el : Xml.Element)
    (tsx_base : String) (h : tile_set.read_tsx I el = "") :
    tile_set.read_map_tile_set I K el tsx_base =
      (tile_set.read_first_id I K el >>= fun g =>
        if tile_set.is_tile_set I el then
          (tile_set.tile_set.read_tile_set I K el g "").map .tile_set
        else
          (tile_set.image_collection.read_image_collection I K el g "").map
            .image_collection) := by
  simp only [tile_set.read_map_tile_set, h, if_true]

end impl

/-- C22: a tile-set element whose source attribute is present and empty is read
by `read_map_tile_set` from the element itself, as a sheet tile set or an
image collection with an empty source: no document is loaded, every result
has an empty source-file reference, and the result is the one for the same
element without the source attribute (the first-id name and the seven
attribute names read from a tile-set element being distinct from the source
name). -/
theorem empty_source_is_embedded (I : Tmx_info) (K : Collaborators) (el : Xml.Element)
    (tsx_base : String) (h : impl.optional_value el I.tile_set_tsx = some "") :
    impl.tile_set.read_map_tile_set I K el tsx_base =
      (impl.tile_set.read_first_id I K el >>= fun g =>
        if impl.tile_set.is_tile_set I el then
          (impl.tile_set.tile_set.read_tile_set I K el g "").map .tile_set
        else
          (impl.tile_set.image_collection.read_image_collection I K el g "").map
            .image_collection) ∧
    (∀ loaded, (impl.tile_set.read_map_tile_set_loading I K el tsx_base loaded).1 = loaded ∧
      (impl.tile_set.read_map_tile_set_loading I K el tsx_base loaded).2 =
        impl.tile_set.read_map_tile_set I K el tsx_base) ∧
    (∀ r, impl.tile_set.read_map_tile_set I K el tsx_base = .ok r →
      (∃ t, r = .tile_set t ∧ t.tsx = "") ∨ (∃ c, r = .image_collection c ∧ c.tsx = "")) ∧
    (∀ el' : Xml.Element, el'.nodes = el.nodes →
      impl.optional_value el' I.tile_set_tsx = none →
      (∀ n, n ≠ I.tile_set_tsx → impl.optional_value el' n = impl.optional_value el n) →
      (∀ n ∈ [I.tile_set_first_id, I.tile_set_name, I.tile_size_width, I.tile_size_height,
        I.tile_set_spacing, I.tile_set_margin, I.tile_set_tile_count, I.tile_set_columns],
        n ≠ I.tile_set_tsx) →
      impl.tile_set.read_map_tile_set I K el' tsx_base =
        impl.tile_set.read_map_tile_set I K el tsx_base) := by
  have htsx : impl.tile_set.read_tsx I el = "" := by
    simp only [impl.tile_set.read_tsx, h]
  have ha := impl.read_map_tile_set_embedded I K el tsx_base htsx
  refine ⟨ha, fun loaded => ?_, fun r hr => ?_, fun el' hnodes hnone hattr hd => ?_⟩
  · simp only [impl.tile_set.read_map_tile_set_loading, impl.tile_set.read_map_tile_set, htsx,
      if_true]
    cases impl.tile_set.read_first_id I K el <;> exact ⟨rfl, rfl⟩
  · rw [ha] at hr
    cases hg : impl.tile_set.read_first_id I K el with
    | error e => rw [hg] at hr; cases hr
    | ok g =>
      rw [hg] at hr
      simp only [bind, Except.bind] at hr
      split at hr
      · obtain ⟨t, h1, h2⟩ := impl.map_eq_ok hr
        exact Or.inl ⟨t, h2, (impl.read_tile_set_fields I K el g "" t h1).2⟩
      · obtain ⟨c, h1, h2⟩ := impl.map_eq_ok hr
        exact Or.inr ⟨c, h2, (impl.read_image_collection_fields I K el g "" c h1).2⟩
  · have htsx' : impl.tile_set.read_tsx I el' = "" := by
      simp only [impl.tile_set.read_tsx, hnone]
    have hid : impl.tile_set.read_first_id I K el' = impl.tile_set.read_first_id I K el := by
      simp only [impl.tile_set.read_first_id, impl.value,
        hattr I.tile_set_first_id (hd _ (by simp))]
    obtain ⟨e1, e2, e3⟩ := impl.readers_agree I K el el' hnodes
      (fun n hn => hattr n (hd n (List.mem_cons_of_mem _ hn)))
    rw [ha, impl.read_map_tile_set_embedded I K el' tsx_base htsx', hid, e1]
    simp only [e2, e3]

/-- A witness of C22: the sheet tile set with `source=""` is read without any
document to load, to a tile set with an empty source, the one the element
without the source attribute gives. -/
theorem empty_source_is_embedded_witness :
    (impl.tile_set.read_map_tile_set_loading tmx (sample [])
      (sample_embedded [("firstgid", "1"), ("source", ""), ("tilewidth", "16"),
        ("tileheight", "16"), ("tilecount", "8"), ("columns", "4")]) "." []).1 = [] ∧
    (∃ t, impl.tile_set.read_map_tile_set tmx (sample [])
      (sample_embedded [("firstgid", "1"), ("source", ""), ("tilewidth", "16"),
        ("tileheight", "16"), ("tilecount", "8"), ("columns", "4")]) "." = .ok (.tile_set t) ∧
      t.tsx = "") ∧
    impl.tile_set.read_map_tile_set tmx (sample [])
      (sample_embedded [("firstgid", "1"), ("tilewidth", "16"),
        ("tileheight", "16"), ("tilecount", "8"), ("columns", "4")]) "." =
    impl.tile_set.read_map_tile_set tmx (sample [])
      (sample_embedded [("firstgid", "1"), ("source", ""), ("tilewidth", "16"),
        ("tileheight", "16"), ("tilecount", "8"), ("columns", "4")]) "." := by
  have h := empty_source_is_embedded tmx (sample [])
    (sample_embedded [("firstgid", "1"), ("source", ""), ("tilewidth", "16"),
      ("tileheight", "16"), ("tilecount", "8"), ("columns", "4")]) "." rfl
  refine ⟨(h.2.1 []).1, ?_, ?_⟩
  · rcases h.2.2.1 _ rfl with ⟨t, ht, hs⟩ | ⟨c, hc, _⟩
    · exact ⟨t, ht ▸ rfl, hs⟩
    · cases hc
  · refine h.2.2.2 _ rfl rfl (fun n hn => ?_) (by decide)
    have hn' : (n == "source") = false := beq_false_of_ne hn
    simp only [impl.optional_value, sample_embedded, Xml.Element.attributes, List.lookup, hn']

/-! ## C23: external tile sets do not nest -/

namespace impl

theorem transform_loading_snd {α β : Type} (f : α → Loaded → Loaded × Except Error β)
    (g : α → Except Error β) (hf : ∀ a loaded, (f a loaded).2 = g a) :
    ∀ l loaded, (transform_loading f l loaded).2 = transform g l := by
  intro l
  induction l with
  | nil => intro loaded; rfl
  | cons a l ih =>
    intro loaded
    have ha := hf a loaded
    simp only [transform_loading, transform, bind, Except.bind, pure, Except.pure]
    rcases hfa : f a loaded with ⟨l1, r1⟩
    rw [hfa] at ha
    simp only at ha
    cases r1 with
    | error e => simp only [← ha]
    | ok b =>
      simp only [← ha]
      have hl := ih l1
      rcases hfl : transform_loading f l l1 with ⟨l2, r2⟩
      rw [hfl] at hl
      simp only at hl
      cases r2 with
      | error e => simp only [← hl]
      | ok bs => simp only [← hl]

theorem transform_loading_fst {α β : Type} (f : α → Loaded → Loaded × Except Error β)
    (p : α → Bool) (q : α → String)
    (hf : ∀ a loaded, (f a loaded).1 = loaded ∨
      (p a = true ∧ (f a loaded).1 = loaded ++ [q a])) :
    ∀ l loaded, ∃ extra, (transform_loading f l loaded).1 = loaded ++ extra ∧
      extra.Sublist ((l.filter p).map q) := by
  intro l
  induction l with
  | nil => intro loaded; exact ⟨[], by simp [transform_loading], List.Sublist.slnil⟩
  | cons a l ih =>
    intro loaded
    have hstep : ∃ e, (f a loaded).1 = loaded ++ e ∧ e.Sublist (([a].filter p).map q) := by
      rcases hf a loaded with h | ⟨hp, h⟩
      · exact ⟨[], by simp [h], List.nil_sublist _⟩
      · exact ⟨[q a], h, by simp [List.filter_cons, hp]⟩
    obtain ⟨e, he, hsub⟩ := hstep
    have hsplit : ((a :: l).filter p).map q = (([a].filter p).map q) ++ ((l.filter p).map q) := by
      rw [← List.map_append, ← List.filter_append]
      rfl
    simp only [transform_loading]
    rcases hfa : f a loaded with ⟨l1, r1⟩
    rw [hfa] at he
    simp only at he
    cases r1 with
    | error err =>
      refine ⟨e, he, ?_⟩
      rw [hsplit]
      exact hsub.trans (List.sublist_append_left _ _)
    | ok b =>
      obtain ⟨e2, he2, hsub2⟩ := ih l1
      simp only
      rcases hfl : transform_loading f l l1 with ⟨l2, r2⟩
      rw [hfl] at he2
      simp only at he2
      have hlog : l2 = loaded ++ (e ++ e2) := by rw [he2, he, List.append_assoc]
      have hs : (e ++ e2).Sublist (((a :: l).filter p).map q) := by
        rw [hsplit]
        exact List.Sublist.append hsub hsub2
      cases r2 with
      | error err => exact ⟨e ++ e2, hlog, hs⟩
      | ok bs => exact ⟨e ++ e2, hlog, hs⟩

theorem read_map_tile_set_loading_snd (I : Tmx_info) (K : Collaborators) (el : Xml.Element)
    (tsx_base : String) (loaded : Loaded) :
    (tile_set.read_map_tile_set_loading I K el tsx_base loaded).2 =
      tile_set.read_map_tile_set I K el tsx_base := by
  simp only [tile_set.read_map_tile_set_loading, tile_set.read_map_tile_set, read_tsx_loading]
  cases tile_set.read_first_id I K el with
  | error e => rfl
  | ok g =>
    simp only [bind, Except.bind]
    split <;> rfl

theorem read_map_tile_set_loading_fst (I : Tmx_info) (K : Collaborators) (el : Xml.Element)
    (tsx_base : String) (loaded : Loaded) :
    (tile_set.read_map_tile_set_loading I K el tsx_base loaded).1 = loaded ∨
    (decide (tile_set.read_tsx I el ≠ "") = true ∧
      (tile_set.read_map_tile_set_loading I K el tsx_base loaded).1 =
        loaded ++ [K.absolute (tile_set.read_tsx I el) tsx_base]) := by
  simp only [tile_set.read_map_tile_set_loading, read_tsx_loading]
  cases tile_set.read_first_id I K el with
  | error e => exact Or.inl rfl
  | ok g =>
    by_cases h : tile_set.read_tsx I el = ""
    · left; simp only [h, if_true]
    · right; simp [h]

end impl

namespace impl

theorem read_map_loading_snd (I : Tmx_info) (K : Collaborators) (el : Xml.Element)
    (tsx_base : String) (loaded : Loaded) :
    (map.read_map_loading I K el tsx_base loaded).2 = map.read_map I K el tsx_base := by
  have hts := transform_loading_snd
    (fun ts => tile_set.read_map_tile_set_loading I K ts tsx_base)
    (fun ts => tile_set.read_map_tile_set I K ts tsx_base)
    (fun a l => read_map_tile_set_loading_snd I K a tsx_base l) (el.children I.tile_set) loaded
  simp only [map.read_map_loading, map.read_map, map.read_tile_sets_loading,
    map.read_tile_sets, bind, Except.bind, pure, Except.pure]
  rcases map.read_version I el with e | v
  · rfl
  rcases map.read_orientation I K el with e | v
  · rfl
  rcases map.read_render_order I el with e | v
  · rfl
  rcases read_isize I K el with e | v
  · rfl
  rcases read_tile_size I K el with e | v
  · rfl
  rcases map.read_background I K el with e | v
  · rfl
  rcases map.read_next_id I K el with e | v
  · rfl
  rcases properties.read_properties I K el with e | v
  · rfl
  simp only
  rw [← hts]
  rcases transform_loading (fun ts => tile_set.read_map_tile_set_loading I K ts tsx_base)
    (el.children I.tile_set) loaded with ⟨l2, r2⟩
  rcases r2 with e | v
  · rfl
  simp only []
  rcases map.read_layers I K el with e | v <;> rfl

theorem read_map_loading_fst (I : Tmx_info) (K : Collaborators) (el : Xml.Element)
    (tsx_base : String) (loaded : Loaded) :
    ∃ extra, (map.read_map_loading I K el tsx_base loaded).1 = loaded ++ extra ∧
      extra.Sublist (((el.children I.tile_set).filter
        (fun ts => decide (tile_set.read_tsx I ts ≠ ""))).map
        (fun ts => K.absolute (tile_set.read_tsx I ts) tsx_base)) := by
  obtain ⟨extra, hlog, hsub⟩ := transform_loading_fst
    (fun ts => tile_set.read_map_tile_set_loading I K ts tsx_base)
    (fun ts => decide (tile_set.read_tsx I ts ≠ ""))
    (fun ts => K.absolute (tile_set.read_tsx I ts) tsx_base)
    (fun a l => read_map_tile_set_loading_fst I K a tsx_base l) (el.children I.tile_set) loaded
  simp only [map.read_map_loading, map.read_tile_sets_loading]
  split
  · exact ⟨[], by simp, List.nil_sublist _⟩
  · rcases hfl : transform_loading
      (fun ts => tile_set.read_map_tile_set_loading I K ts tsx_base)
      (el.children I.tile_set) loaded with ⟨l2, r2⟩
    rw [hfl] at hlog
    simp only at hlog
    rcases r2 with e | v
    · exact ⟨extra, hlog, hsub⟩
    · exact ⟨extra, hlog, hsub⟩

end impl

/-- C23: `read_tsx` loads one document, the one at `absolute(tsx, base)`, and
builds the tile set or image collection from its root with the element
readers, which load nothing and give the same results whatever the root has
under the source name (the seven attribute names they read being distinct
from it). So `read_map_tile_set` loads at most one document, and `read_map`
loads, in order, documents named by the non-empty source attributes of the
map's own tile-set children, each at most once per child: never more
documents than such children. `read_map` is a total function: on every map
element it returns a map or throws. -/
theorem external_tile_sets_do_not_nest (I : Tmx_info) (K : Collaborators) :
    (∀ g s base loaded,
      (read_tsx_loading I K g s base loaded).1 = loaded ++ [K.absolute s base] ∧
      (read_tsx_loading I K g s base loaded).2 = read_tsx I K g s base) ∧
    (∀ g s base root, K.load (K.absolute s base) = .ok root → root.name = I.tile_set →
      read_tsx I K g s base = impl.rethrow_invalid_argument
        (if impl.tile_set.is_tile_set I root then
          (impl.tile_set.tile_set.read_tile_set I K root g s).map .tile_set
        else
          (impl.tile_set.image_collection.read_image_collection I K root g s).map
            .image_collection)) ∧
    (∀ root root' : Xml.Element, root'.nodes = root.nodes →
      (∀ n, n ≠ I.tile_set_tsx → impl.optional_value root' n = impl.optional_value root n) →
      (∀ n ∈ [I.tile_set_name, I.tile_size_width, I.tile_size_height, I.tile_set_spacing,
        I.tile_set_margin, I.tile_set_tile_count, I.tile_set_columns], n ≠ I.tile_set_tsx) →
      impl.tile_set.is_tile_set I root' = impl.tile_set.is_tile_set I root ∧
      (∀ g s, impl.tile_set.tile_set.read_tile_set I K root' g s =
        impl.tile_set.tile_set.read_tile_set I K root g s) ∧
      (∀ g s, impl.tile_set.image_collection.read_image_collection I K root' g s =
        impl.tile_set.image_collection.read_image_collection I K root g s)) ∧
    (∀ (el : Xml.Element) base loaded,
      (impl.tile_set.read_map_tile_set_loading I K el base loaded).2 =
        impl.tile_set.read_map_tile_set I K el base ∧
      ((impl.tile_set.read_map_tile_set_loading I K el base loaded).1 = loaded ∨
        (impl.tile_set.read_tsx I el ≠ "" ∧
          (impl.tile_set.read_map_tile_set_loading I K el base loaded).1 =
            loaded ++ [K.absolute (impl.tile_set.read_tsx I el) base]))) ∧
    (∀ (el : Xml.Element) base loaded,
      (impl.map.read_map_loading I K el base loaded).2 = impl.map.read_map I K el base ∧
      ∃ extra, (impl.map.read_map_loading I K el base loaded).1 = loaded ++ extra ∧
        extra.Sublist (((el.children I.tile_set).filter
          (fun ts => decide (impl.tile_set.read_tsx I ts ≠ ""))).map
          (fun ts => K.absolute (impl.tile_set.read_tsx I ts) base)) ∧
        extra.length ≤ ((el.children I.tile_set).filter
          (fun ts => decide (impl.tile_set.read_tsx I ts ≠ ""))).length) ∧
    (∀ (el : Xml.Element) base, (∃ m, impl.map.read_map I K el base = .ok m) ∨
      (∃ e, impl.map.read_map I K el base = .error e)) := by
  refine ⟨fun g s base loaded => ⟨rfl, rfl⟩, fun g s base root hload hname => ?_,
    fun root root' hnodes hattr hd => ?_, fun el base loaded => ?_, fun el base loaded => ?_,
    fun el base => ?_⟩
  · simp only [read_tsx, hload, hname, bind, Except.bind, ne_eq, not_true_eq_false, if_false]
  · exact impl.readers_agree I K root root' hnodes (fun n hn => hattr n (hd n hn))
  · refine ⟨impl.read_map_tile_set_loading_snd I K el base loaded, ?_⟩
    rcases impl.read_map_tile_set_loading_fst I K el base loaded with h | ⟨hp, h⟩
    · exact Or.inl h
    · exact Or.inr ⟨by simpa using hp, h⟩
  · refine ⟨impl.read_map_loading_snd I K el base loaded, ?_⟩
    obtain ⟨extra, hlog, hsub⟩ := impl.read_map_loading_fst I K el base loaded
    refine ⟨extra, hlog, hsub, ?_⟩
    have := hsub.length_le
    simpa using this
  · cases h : impl.map.read_map I K el base with
    | ok m => exact Or.inl ⟨m, rfl⟩
    | error e => exact Or.inr ⟨e, rfl⟩

/-- A witness of C23: the map refers to `a.tsx`, whose root names `a.tsx` itself
as its source; `read_map` returns a map with one tile set, of source `a.tsx`,
after loading the one document `./a.tsx`. -/
theorem external_tile_sets_do_not_nest_witness :
    impl.optional_value sample_cyclic_root tmx.tile_set_tsx = some "a.tsx" ∧
    (impl.map.read_map_loading tmx (sample [("./a.tsx", sample_cyclic_root)])
      (sample_map [sample_reference "1" "a.tsx" [] []]) "." []).1 = ["./a.tsx"] ∧
    (∃ t m, impl.map.read_map tmx (sample [("./a.tsx", sample_cyclic_root)])
      (sample_map [sample_reference "1" "a.tsx" [] []]) "." = .ok m ∧
      m.tile_sets = [.tile_set t] ∧ t.tsx = "a.tsx") := by
  have h := (external_tile_sets_do_not_nest tmx (sample [("./a.tsx", sample_cyclic_root)])).2.2.2.2.1
    (sample_map [sample_reference "1" "a.tsx" [] []]) "." []
  refine ⟨rfl, rfl, ?_⟩
  rw [← h.1]
  exact ⟨_, _, rfl, rfl, rfl⟩

end tmxpp
